import Mathlib

/-!
# SP3EphemerisStore: a composite store of satellite positions and clocks

A shallow embedding of `core/lib/GNSSEph/SP3EphemerisStore.hpp` (GPSTk).  The class
owns a position store and a clock store (both tabular per-satellite time series), two
file lists, the store time system, the clock-source flag `useSP3clock` and four
rejection flags.  Member functions that mutate the object become functions
`SP3EphemerisStore → SP3EphemerisStore`; `const` member functions become functions of
the state; member functions that throw return `Except`/`Option`.

`TabularSatStore`, `PositionSatStore`, `ClockSatStore`, `FileStore`, `SatID`,
`CommonTime`, `TimeSystem`, `Xvt` and the out-of-line member functions of
`SP3EphemerisStore` live outside this header; their models below follow the written
specification of the store and are marked as such.
-/

namespace gpstk

/-! ## Primitive types -/

/-- Modelled from the spec: `TimeSystem` (declaration not in the sources). The tags the
specification lists: GPS, UTC, GLONASS, Galileo, BeiDou, QZSS, IRNSS, or `Any`. -/
inductive TimeSystem where
  | Any | GPS | UTC | GLO | GAL | BDT | QZS | IRN
  deriving DecidableEq, Repr

/-- Modelled from the spec: `CommonTime` (declaration not in the sources). An instant,
in seconds, in exact arithmetic.  Every instant held by a series shares the time system
of the composite store, so the tag is kept once, in `storeTimeSystem`. -/
abbrev CommonTime := ℚ

/-- Modelled from the spec: `SatID` (declaration not in the sources). The pair
`(system, id)`: a constellation tag and an integer identifier. -/
structure SatID where
  system : Nat
  id : Int
  deriving DecidableEq, Repr

/-- Modelled from the spec: ordering of `SatID` is lexicographic over `(system, id)`. -/
def SatID.lt (a b : SatID) : Prop :=
  a.system < b.system ∨ (a.system = b.system ∧ a.id < b.id)

instance : LT SatID := ⟨SatID.lt⟩

instance SatID.decLt (a b : SatID) : Decidable (a < b) :=
  inferInstanceAs (Decidable (a.system < b.system ∨ (a.system = b.system ∧ a.id < b.id)))

/-- Three rational components (`Triple`). -/
structure Triple where
  x : ℚ
  y : ℚ
  z : ℚ
  deriving DecidableEq, Repr

/-- Modelled from the spec: `PositionRecord` (declaration not in the sources). Position
and its sigma, optional velocity and its sigma. -/
structure PositionRecord where
  Pos : Triple
  sigPos : Triple
  Vel : Option Triple
  sigVel : Option Triple
  deriving DecidableEq, Repr

/-- Modelled from the spec: `ClockRecord` (declaration not in the sources). Bias,
optional drift and optional acceleration, with their sigmas. -/
structure ClockRecord where
  bias : ℚ
  sig_bias : ℚ
  drift : Option ℚ
  sig_drift : Option ℚ
  accel : Option ℚ
  sig_accel : Option ℚ
  deriving DecidableEq, Repr

/-- Modelled from the spec: the error kinds of the error-handling design (the exception
classes are not in the sources). -/
inductive ErrorKind where
  | OutOfRange | UnknownSatellite | DataGap | IntervalExceeded
  | TimeSystemMismatch | InsufficientSamples | SourceModeMismatch | ParseFailure
  deriving DecidableEq, Repr

deriving instance DecidableEq for Except

/-! ## Interpolators -/

/-- Modelled from the spec: one factor `(t - t_j) / (t_i - t_j)` of the standard Lagrange
basis. -/
def lagrangeFactor (ts : List ℚ) (i j : Nat) (t : ℚ) : ℚ :=
  (t - ts.getD j 0) / (ts.getD i 0 - ts.getD j 0)

/-- Modelled from the spec: the standard Lagrange basis polynomial `L_i(t)` on the
abscissae `ts`. -/
def lagrangeBasis (ts : List ℚ) (i : Nat) (t : ℚ) : ℚ :=
  (((List.range ts.length).filter (fun j => decide (j ≠ i))).map
    (fun j => lagrangeFactor ts i j t)).prod

/-- Modelled from the spec: the analytic derivative `L_i'(t)` of the basis. -/
def lagrangeBasisDeriv (ts : List ℚ) (i : Nat) (t : ℚ) : ℚ :=
  (((List.range ts.length).filter (fun k => decide (k ≠ i))).map
    (fun k => 1 / (ts.getD i 0 - ts.getD k 0) *
      (((List.range ts.length).filter (fun j => decide (j ≠ i ∧ j ≠ k))).map
        (fun j => lagrangeFactor ts i j t)).prod)).sum

/-- Modelled from the spec: the analytic second derivative `L_i''(t)` of the basis. -/
def lagrangeBasisDeriv2 (ts : List ℚ) (i : Nat) (t : ℚ) : ℚ :=
  (((List.range ts.length).filter (fun k => decide (k ≠ i))).map
    (fun k => 1 / (ts.getD i 0 - ts.getD k 0) *
      (((List.range ts.length).filter (fun l => decide (l ≠ i ∧ l ≠ k))).map
        (fun l => 1 / (ts.getD i 0 - ts.getD l 0) *
          (((List.range ts.length).filter
              (fun j => decide (j ≠ i ∧ j ≠ k ∧ j ≠ l))).map
            (fun j => lagrangeFactor ts i j t)).prod)).sum)).sum

/-- Modelled from the spec: `y(t) = Σ y_i · L_i(t)`. -/
def lagrangeInterpolation (ts ys : List ℚ) (t : ℚ) : ℚ :=
  ((List.range ts.length).map (fun i => ys.getD i 0 * lagrangeBasis ts i t)).sum

/-- Modelled from the spec: `y'(t)` via the analytic derivative of the basis. -/
def lagrangeDerivative (ts ys : List ℚ) (t : ℚ) : ℚ :=
  ((List.range ts.length).map (fun i => ys.getD i 0 * lagrangeBasisDeriv ts i t)).sum

/-- Modelled from the spec: `y''(t)` via the second derivative of the basis. -/
def lagrangeSecondDerivative (ts ys : List ℚ) (t : ℚ) : ℚ :=
  ((List.range ts.length).map (fun i => ys.getD i 0 * lagrangeBasisDeriv2 ts i t)).sum

/-- Modelled from the spec: two-point interpolation between the bracketing samples
`(t0, y0)` and `(t1, y1)`. -/
def linearInterpolation (t0 y0 t1 y1 t : ℚ) : ℚ :=
  y0 + (y1 - y0) * ((t - t0) / (t1 - t0))

/-- Modelled from the spec: the derivative of the linear interpolation is the
difference quotient. -/
def linearDerivative (t0 y0 t1 y1 : ℚ) : ℚ :=
  (y1 - y0) / (t1 - t0)

/-- Apply a scalar interpolation to each coordinate of a list of triples. -/
def interpTriple (f : List ℚ → ℚ) (vals : List Triple) : Triple :=
  { x := f (vals.map (fun v => v.x))
    y := f (vals.map (fun v => v.y))
    z := f (vals.map (fun v => v.z)) }

/-- Multiply each coordinate of a triple by a factor. -/
def Triple.scale (c : ℚ) (v : Triple) : Triple :=
  { x := c * v.x, y := c * v.y, z := c * v.z }

/-- The number of values of an `unsigned int`, the type of the interpolation order. -/
def uintSize : Nat := 2 ^ 32

/-! ## Tabular series -/

/-- The ordered map `Instant → S` of one satellite, as its list of entries. -/
abbrev DataTable (R : Type) := List (CommonTime × R)

/-- The map `SatelliteId → DataTable`, as its list of entries. -/
abbrev SatTable (R : Type) := List (SatID × DataTable R)

/-- Modelled from the spec: `TabularSatStore` (declaration not in the sources). A
mapping from satellite to an ordered map from instant to sample, the two monotone flags
`hasVelocity`/`hasDrift`, the two optional thresholds (absence disables the check) and
the interpolation order (default 10). -/
structure TabularSatStore (R : Type) where
  tables : SatTable R := []
  haveVelocity : Bool := true
  haveClockDrift : Bool := true
  gapInterval : Option ℚ := none
  maxInterval : Option ℚ := none
  interpOrder : Nat := 10
  deriving DecidableEq, Repr

namespace TabularSatStore

variable {R : Type}

/-- Modelled from the spec: a satellite is present in a series when the mapping has an
entry for it. -/
def isPresent (st : TabularSatStore R) (sat : SatID) : Bool :=
  st.tables.any (fun e => e.1 == sat)

/-- Modelled from the spec: the satellites of the series, in the order of the mapping. -/
def getSatList (st : TabularSatStore R) : List SatID :=
  st.tables.map (fun e => e.1)

/-- Modelled from the spec: the number of samples held, over all satellites. -/
def ndata (st : TabularSatStore R) : Nat :=
  (st.tables.map (fun e => e.2.length)).sum

/-- Modelled from the spec: the number of samples held for one satellite. -/
def ndataSat (st : TabularSatStore R) (sat : SatID) : Nat :=
  match st.tables.find? (fun e => e.1 == sat) with
  | some e => e.2.length
  | none => 0

/-- Modelled from the spec: `clear()` drops all satellites; the monotone flags stay
cleared only until `clear()`, the configuration is kept. -/
def clear (st : TabularSatStore R) : TabularSatStore R :=
  { st with tables := [], haveVelocity := true, haveClockDrift := true }

/-- Every instant held by the series, over all satellites. -/
def allTimes (st : TabularSatStore R) : List CommonTime :=
  (st.tables.map (fun e => e.2.map (fun p => p.1))).flatten

/-- The instants held for one satellite; `none` when the satellite has no entry. -/
def satTimes (st : TabularSatStore R) (sat : SatID) : Option (List CommonTime) :=
  (st.tables.find? (fun e => e.1 == sat)).map (fun e => e.2.map (fun p => p.1))

/-- The least element of a list of instants, `none` on the empty list. -/
def minTime : List CommonTime → Option CommonTime
  | [] => none
  | t :: ts => some (ts.foldl min t)

/-- The greatest element of a list of instants, `none` on the empty list. -/
def maxTime : List CommonTime → Option CommonTime
  | [] => none
  | t :: ts => some (ts.foldl max t)

/-- Modelled from the spec: `initialTime()` is the minimum instant across all
satellites; it fails (`none`) when the series has no data. -/
def getInitialTime (st : TabularSatStore R) : Option CommonTime :=
  minTime st.allTimes

/-- Modelled from the spec: `finalTime()` is the maximum instant across all satellites;
it fails (`none`) when the series has no data. -/
def getFinalTime (st : TabularSatStore R) : Option CommonTime :=
  maxTime st.allTimes

/-- Modelled from the spec: `initialTime(sat)` is the minimum instant of one satellite;
it fails when the satellite has no data. -/
def getInitialTimeSat (st : TabularSatStore R) (sat : SatID) : Option CommonTime :=
  (st.satTimes sat).bind minTime

/-- Modelled from the spec: `finalTime(sat)` is the maximum instant of one satellite;
it fails when the satellite has no data. -/
def getFinalTimeSat (st : TabularSatStore R) (sat : SatID) : Option CommonTime :=
  (st.satTimes sat).bind maxTime

/-- The ordered map of one satellite; `none` when the satellite has no entry. -/
def getTable (st : TabularSatStore R) (sat : SatID) : Option (DataTable R) :=
  (st.tables.find? (fun e => e.1 == sat)).map (fun e => e.2)

/-- The differences of adjacent keys. -/
def adjacentDiffs (ts : List CommonTime) : List ℚ :=
  List.zipWith (fun a b => b - a) ts ts.tail

/-- The most frequent value of a list (the first one among equally frequent values),
zero on the empty list. -/
def modalValue (ds : List ℚ) : ℚ :=
  ds.foldl (fun best d => if ds.count best < ds.count d then d else best) (ds.headD 0)

/-- Modelled from the spec: the nominal step of a satellite is the modal adjacent-key
difference of its series. -/
def nomTimeStep (st : TabularSatStore R) (sat : SatID) : ℚ :=
  match st.getTable sat with
  | some tbl => modalValue (adjacentDiffs (tbl.map (fun p => p.1)))
  | none => 0

/-- Modelled from the spec: the gap check. With a gap interval set, the distance
between the two bracketing samples must not exceed `gapInterval × nominalStep`. -/
def gapExceeded (st : TabularSatStore R) (sat : SatID) (lower upper : CommonTime) : Bool :=
  match st.gapInterval with
  | some g => decide (upper - lower > g * st.nomTimeStep sat)
  | none => false

/-- Modelled from the spec: the interval check. With a maximum interval set, the time
span of the full window must not exceed `maxInterval × nominalStep`. -/
def intervalExceeded (st : TabularSatStore R) (sat : SatID) (first last : CommonTime) :
    Bool :=
  match st.maxInterval with
  | some m => decide (last - first > m * st.nomTimeStep sat)
  | none => false

/-- Modelled from the spec: sample selection (`TabularSatStore` is not in the sources).
With half-size `nhalf`, find the first sample with instant `≥ t`; fail "out of range"
if no sample `≥ t` or no sample `< t` exists; police the gap between the bracketing
samples; take the window of `2 * nhalf` samples centred on the bracket, shifted to
touch the array end when fewer than `nhalf` samples lie on one side; police the span
of the window. -/
def getTableInterval (st : TabularSatStore R) (sat : SatID) (ttag : CommonTime)
    (nhalf : Nat) : Except ErrorKind (DataTable R) :=
  match st.getTable sat with
  | none => Except.error ErrorKind.UnknownSatellite
  | some tbl =>
    let times := tbl.map (fun p => p.1)
    let k := times.findIdx (fun u => decide (ttag ≤ u))
    if !(times.any (fun u => decide (ttag ≤ u))) || !(times.any (fun u => decide (u < ttag)))
    then Except.error ErrorKind.OutOfRange
    else if st.gapExceeded sat (times.getD (k - 1) 0) (times.getD k 0)
    then Except.error ErrorKind.DataGap
    else if tbl.length < 2 * nhalf then Except.error ErrorKind.InsufficientSamples
    else
      let start :=
        if k < nhalf then 0
        else if tbl.length < k + nhalf then tbl.length - 2 * nhalf
        else k - nhalf
      let window := (tbl.drop start).take (2 * nhalf)
      if st.intervalExceeded sat (times.getD start 0) (times.getD (start + 2 * nhalf - 1) 0)
      then Except.error ErrorKind.IntervalExceeded
      else Except.ok window

/-- Insert into the ordered map of one satellite: the keys stay increasing, and a
sample at an instant already held replaces the old one. -/
def insertSample (ttag : CommonTime) (rec : R) : DataTable R → DataTable R
  | [] => [(ttag, rec)]
  | (u, r) :: rest =>
    if ttag < u then (ttag, rec) :: (u, r) :: rest
    else if u < ttag then (u, r) :: insertSample ttag rec rest
    else (ttag, rec) :: rest

/-- Insert a sample into the map from satellite to ordered map: into the map of the
satellite when it has one, else into a new map for it. -/
def insertSat (sat : SatID) (ttag : CommonTime) (rec : R) : SatTable R → SatTable R
  | [] => [(sat, [(ttag, rec)])]
  | (x, tbl) :: rest =>
    if x = sat then (x, insertSample ttag rec tbl) :: rest
    else (x, tbl) :: insertSat sat ttag rec rest

/-- Modelled from the spec: `add(sat, instant, record)` inserts or replaces; if the
instant already exists for that satellite, the new record replaces the old. The
nominal step is a function of the table, so it is recomputed with it. -/
def addRecord (st : TabularSatStore R) (sat : SatID) (ttag : CommonTime) (rec : R) :
    TabularSatStore R :=
  { st with tables := insertSat sat ttag rec st.tables }

/-- Modelled from the spec: `edit(tmin, tmax)` drops all samples outside `[tmin, tmax]`
across all satellites. -/
def edit (st : TabularSatStore R) (tmin tmax : CommonTime) : TabularSatStore R :=
  { st with
    tables := st.tables.map
      (fun e => (e.1, e.2.filter (fun p => decide (tmin ≤ p.1) && decide (p.1 ≤ tmax)))) }

/-- The interpolation order of the series. -/
def getInterpolationOrder (st : TabularSatStore R) : Nat := st.interpOrder

/-- Modelled from the spec: the interpolation order is forced to be even, odd values
being rounded up; the order is an `unsigned int`, so the rounding is taken modulo
`uintSize`. -/
def setInterpolationOrder (st : TabularSatStore R) (order : Nat) : TabularSatStore R :=
  { st with interpOrder := (2 * ((order + 1) / 2)) % uintSize }

/-- Modelled from the spec: is the gap check on (a gap interval is set)? -/
def isDataGapCheck (st : TabularSatStore R) : Bool := st.gapInterval.isSome

/-- Modelled from the spec: set the gap interval and turn on gap checking. -/
def setGapInterval (st : TabularSatStore R) (interval : ℚ) : TabularSatStore R :=
  { st with gapInterval := some interval }

/-- Modelled from the spec: turn off gap checking. -/
def disableDataGapCheck (st : TabularSatStore R) : TabularSatStore R :=
  { st with gapInterval := none }

/-- Modelled from the spec: is the interval check on (a maximum interval is set)? -/
def isIntervalCheck (st : TabularSatStore R) : Bool := st.maxInterval.isSome

/-- Modelled from the spec: set the maximum interval and turn on interval checking. -/
def setMaxInterval (st : TabularSatStore R) (interval : ℚ) : TabularSatStore R :=
  { st with maxInterval := some interval }

/-- Modelled from the spec: turn off interval checking. -/
def disableIntervalCheck (st : TabularSatStore R) : TabularSatStore R :=
  { st with maxInterval := none }

/-- The index of the first sample with instant `≥ t` (the "upper" iterator); the length
of the table when there is none. -/
def upperIndex (tbl : DataTable R) (ttag : CommonTime) : Nat :=
  (tbl.map (fun p => p.1)).findIdx (fun u => decide (ttag ≤ u))

/-- The instant of the sample just before the upper one (the lower bracketing
sample). -/
def lowerTime (tbl : DataTable R) (ttag : CommonTime) : CommonTime :=
  (tbl.map (fun p => p.1)).getD (upperIndex tbl ttag - 1) 0

/-- The instant of the upper bracketing sample. -/
def upperTime (tbl : DataTable R) (ttag : CommonTime) : CommonTime :=
  (tbl.map (fun p => p.1)).getD (upperIndex tbl ttag) 0

/-- A bracket exists: some sample has instant `≥ t` and some sample has instant
`< t`. -/
def inRange (tbl : DataTable R) (ttag : CommonTime) : Bool :=
  (tbl.map (fun p => p.1)).any (fun u => decide (ttag ≤ u)) &&
    (tbl.map (fun p => p.1)).any (fun u => decide (u < ttag))

/-- The index at which the window of `2 * nhalf` samples starts. -/
def windowStart (tbl : DataTable R) (ttag : CommonTime) (nhalf : Nat) : Nat :=
  if upperIndex tbl ttag < nhalf then 0
  else if tbl.length < upperIndex tbl ttag + nhalf then tbl.length - 2 * nhalf
  else upperIndex tbl ttag - nhalf

/-- The checks of the sample selection that can reject a query which has a bracket:
the gap check, the number of samples against the window size, the interval check. -/
def selectionRejects (st : TabularSatStore R) (sat : SatID) (ttag : CommonTime)
    (nhalf : Nat) : Bool :=
  match st.getTable sat with
  | none => false
  | some tbl =>
    st.gapExceeded sat (lowerTime tbl ttag) (upperTime tbl ttag) ||
      decide (tbl.length < 2 * nhalf) ||
      st.intervalExceeded sat ((tbl.map (fun p => p.1)).getD (windowStart tbl ttag nhalf) 0)
        ((tbl.map (fun p => p.1)).getD (windowStart tbl ttag nhalf + 2 * nhalf - 1) 0)

end TabularSatStore

/-- Modelled from the spec: `PositionSatStore` (declaration not in the sources), the
tabular series specialised to position records. -/
abbrev PositionSatStore := TabularSatStore PositionRecord

/-- Modelled from the spec: adding a position record; `hasVelocity` is cleared by a
sample that lacks the velocity, and stays cleared. -/
def PositionSatStore.addPositionRecord (st : PositionSatStore) (sat : SatID)
    (ttag : CommonTime) (rec : PositionRecord) : PositionSatStore :=
  { st.addRecord sat ttag rec with haveVelocity := st.haveVelocity && rec.Vel.isSome }

/-- Modelled from the spec: adding position data only is adding a position sample that
carries a position and its sigma and no velocity. -/
def PositionSatStore.addPositionData (st : PositionSatStore) (sat : SatID)
    (ttag : CommonTime) (Pos sig : Triple) : PositionSatStore :=
  st.addPositionRecord sat ttag { Pos := Pos, sigPos := sig, Vel := none, sigVel := none }

/-- The sample held for a satellite at an instant, if any. -/
def PositionSatStore.getRecord (st : PositionSatStore) (sat : SatID) (ttag : CommonTime) :
    Option PositionRecord :=
  (st.getTable sat).bind (fun tbl => (tbl.find? (fun p => p.1 == ttag)).map (fun p => p.2))

/-- Modelled from the spec: adding velocity data sets the velocity and its sigma of the
sample at that instant (a sample not yet held starts from a zero position). No sample
missing the velocity is ingested, and the flag is monotone, so `hasVelocity` is left as
it is. -/
def PositionSatStore.addVelocityData (st : PositionSatStore) (sat : SatID)
    (ttag : CommonTime) (Vel sig : Triple) : PositionSatStore :=
  let old : PositionRecord :=
    (st.getRecord sat ttag).getD
      { Pos := ⟨0, 0, 0⟩, sigPos := ⟨0, 0, 0⟩, Vel := none, sigVel := none }
  st.addRecord sat ttag { old with Vel := some Vel, sigVel := some sig }

/-- The interpolated state of the position store: position, velocity, acceleration. -/
structure PositionValue where
  Pos : Triple
  Vel : Triple
  Acc : Triple
  deriving DecidableEq, Repr

/-- Modelled from the spec: the query of the position store (`PositionSatStore` is not
in the sources). Position from Lagrange interpolation of the three coordinate series
on the selected window; velocity from the stored velocity samples (kept in dm/s,
returned in m/s) if `hasVelocity`, else from the analytic derivative of the position
polynomial; acceleration from the second derivative of the position polynomial. -/
def PositionSatStore.getValue (st : PositionSatStore) (sat : SatID) (ttag : CommonTime) :
    Except ErrorKind PositionValue :=
  match st.getTableInterval sat ttag (st.interpOrder / 2) with
  | Except.error e => Except.error e
  | Except.ok window =>
    let ts := window.map (fun p => p.1)
    let P := window.map (fun p => p.2.Pos)
    let V := window.map (fun p => p.2.Vel.getD ⟨0, 0, 0⟩)
    Except.ok
      { Pos := interpTriple (fun ys => lagrangeInterpolation ts ys ttag) P
        Vel :=
          if st.haveVelocity then
            Triple.scale (1 / 10) (interpTriple (fun ys => lagrangeInterpolation ts ys ttag) V)
          else interpTriple (fun ys => lagrangeDerivative ts ys ttag) P
        Acc := interpTriple (fun ys => lagrangeSecondDerivative ts ys ttag) P }

/-- The interpolated state of the clock store: bias and drift. -/
structure ClockValue where
  bias : ℚ
  drift : ℚ
  deriving DecidableEq, Repr

/-- Modelled from the spec: the clock store selects between Lagrange (default) and
linear interpolation. -/
inductive InterpType where
  | Lagrange | Linear
  deriving DecidableEq, Repr

/-- Modelled from the spec: `ClockSatStore` (declaration not in the sources), the
tabular series specialised to clock records, with the interpolation kind. -/
structure ClockSatStore extends TabularSatStore ClockRecord where
  interpType : InterpType := InterpType.Lagrange
  deriving DecidableEq, Repr

namespace ClockSatStore

/-- Presence of a satellite in the clock series. -/
def isPresent (c : ClockSatStore) (sat : SatID) : Bool :=
  c.toTabularSatStore.isPresent sat

/-- Satellites of the clock series. -/
def getSatList (c : ClockSatStore) : List SatID :=
  c.toTabularSatStore.getSatList

/-- Number of clock samples held. -/
def ndata (c : ClockSatStore) : Nat :=
  c.toTabularSatStore.ndata

/-- Drop all satellites of the clock series. -/
def clear (c : ClockSatStore) : ClockSatStore :=
  { c with toTabularSatStore := c.toTabularSatStore.clear }

/-- Modelled from the spec: adding a clock record; `hasDrift` is cleared by a sample
that lacks the drift, and stays cleared. -/
def addClockRecord (c : ClockSatStore) (sat : SatID) (ttag : CommonTime)
    (rec : ClockRecord) : ClockSatStore :=
  { c with
    toTabularSatStore :=
      { c.toTabularSatStore.addRecord sat ttag rec with
        haveClockDrift := c.haveClockDrift && rec.drift.isSome } }

/-- Drop the clock samples outside `[tmin, tmax]`. -/
def edit (c : ClockSatStore) (tmin tmax : CommonTime) : ClockSatStore :=
  { c with toTabularSatStore := c.toTabularSatStore.edit tmin tmax }

/-- The interpolation order of the clock series. -/
def getInterpolationOrder (c : ClockSatStore) : Nat := c.interpOrder

/-- Modelled from the spec: the clock interpolation order follows the discipline of the
position order; as the header documents for `setClockInterpOrder`, the call is ignored
if the clock interpolation type is linear. -/
def setInterpolationOrder (c : ClockSatStore) (order : Nat) : ClockSatStore :=
  match c.interpType with
  | InterpType.Lagrange =>
    { c with toTabularSatStore := c.toTabularSatStore.setInterpolationOrder order }
  | InterpType.Linear => c

/-- Modelled from the spec: select Lagrange interpolation for the clock. -/
def setLagrangeInterp (c : ClockSatStore) : ClockSatStore :=
  { c with interpType := InterpType.Lagrange }

/-- Modelled from the spec: select linear interpolation for the clock. -/
def setLinearInterp (c : ClockSatStore) : ClockSatStore :=
  { c with interpType := InterpType.Linear }

/-- Set the gap interval of the clock series and turn on gap checking. -/
def setGapInterval (c : ClockSatStore) (interval : ℚ) : ClockSatStore :=
  { c with toTabularSatStore := c.toTabularSatStore.setGapInterval interval }

/-- The half-size of the window the clock query selects: half the order for Lagrange
interpolation, one for linear interpolation. -/
def nhalf (c : ClockSatStore) : Nat :=
  match c.interpType with
  | InterpType.Lagrange => c.interpOrder / 2
  | InterpType.Linear => 1

/-- Modelled from the spec: the query of the clock store (`ClockSatStore` is not in the
sources). Bias from the configured interpolation of the bias series (linear mode
ignores the interpolation order and uses the two bracketing samples); drift from the
stored drift samples if `hasDrift`, else from the derivative of the bias
interpolation. -/
def getValue (c : ClockSatStore) (sat : SatID) (ttag : CommonTime) :
    Except ErrorKind ClockValue :=
  match c.interpType with
  | InterpType.Lagrange =>
    match c.toTabularSatStore.getTableInterval sat ttag (c.interpOrder / 2) with
    | Except.error e => Except.error e
    | Except.ok window =>
      let ts := window.map (fun p => p.1)
      let B := window.map (fun p => p.2.bias)
      let D := window.map (fun p => p.2.drift.getD 0)
      Except.ok
        { bias := lagrangeInterpolation ts B ttag
          drift :=
            if c.haveClockDrift then lagrangeInterpolation ts D ttag
            else lagrangeDerivative ts B ttag }
  | InterpType.Linear =>
    match c.toTabularSatStore.getTableInterval sat ttag 1 with
    | Except.ok [(t0, r0), (t1, r1)] =>
      Except.ok
        { bias := linearInterpolation t0 r0.bias t1 r1.bias ttag
          drift :=
            if c.haveClockDrift then
              linearInterpolation t0 (r0.drift.getD 0) t1 (r1.drift.getD 0) ttag
            else linearDerivative t0 r0.bias t1 r1.bias }
    | Except.ok _ => Except.error ErrorKind.InsufficientSamples
    | Except.error e => Except.error e

end ClockSatStore

/-- Modelled from the spec: `Xvt::HealthStatus` (declaration not in the sources), the
health annotations the specification names. -/
inductive HealthStatus where
  | Unavailable | Unused | Unhealthy | Healthy
  deriving DecidableEq, Repr

/-- Modelled from the spec: `Xvt` (declaration not in the sources), the bundle
`{ position, velocity, clockBias, clockDrift, health }`. -/
structure Xvt where
  x : Triple
  v : Triple
  clkbias : ℚ
  clkdrift : ℚ
  health : HealthStatus
  deriving DecidableEq, Repr

/-- Modelled from the spec: `FileStore` (declaration not in the sources), the names of
the files loaded so far. -/
structure FileStore where
  files : List String := []
  deriving DecidableEq, Repr

/-- Record one more file. -/
def FileStore.addFile (f : FileStore) (filename : String) : FileStore :=
  { files := f.files ++ [filename] }

/-- Modelled from the spec: the header record of the parser collaborator,
`Header { time_system, nominal_step_seconds, satellite_count }`. -/
structure FileHeader where
  timeSystem : TimeSystem
  nominalStep : ℚ
  satCount : Nat
  deriving DecidableEq, Repr

/-- Modelled from the spec: the position sample of the parser collaborator, with its
provenance flags. -/
structure PositionSample where
  sat : SatID
  ttag : CommonTime
  data : PositionRecord
  predicted : Bool
  bad : Bool
  deriving DecidableEq, Repr

/-- Modelled from the spec: the clock sample of the parser collaborator, with its
provenance flags. -/
structure ClockSample where
  sat : SatID
  ttag : CommonTime
  data : ClockRecord
  predicted : Bool
  bad : Bool
  deriving DecidableEq, Repr

/-- Modelled from the spec: the tagged records the parser collaborator yields. -/
inductive FileRecord where
  | header (h : FileHeader)
  | position (p : PositionSample)
  | clock (c : ClockSample)
  deriving DecidableEq, Repr

/-- Modelled from the spec: a file as delivered by the parser collaborator: its name
and the records it yields, in order. -/
structure ParsedFile where
  filename : String
  records : List FileRecord
  deriving DecidableEq, Repr

/-- Number of files recorded. -/
def FileStore.size (f : FileStore) : Nat := f.files.length

/-! ## The composite store -/

/-- Member data of `class SP3EphemerisStore`. -/
structure SP3EphemerisStore where
  storeTimeSystem : TimeSystem
  posStore : PositionSatStore
  clkStore : ClockSatStore
  SP3Files : FileStore
  clkFiles : FileStore
  useSP3clock : Bool
  rejectBadPosFlag : Bool
  rejectBadClockFlag : Bool
  rejectPredPosFlag : Bool
  rejectPredClockFlag : Bool
  deriving DecidableEq, Repr

namespace SP3EphemerisStore

/-- The default constructor: the member initialiser list, the remaining members being
default-constructed. -/
def new : SP3EphemerisStore :=
  { storeTimeSystem := TimeSystem.Any
    posStore := {}
    clkStore := {}
    SP3Files := {}
    clkFiles := {}
    useSP3clock := true
    rejectBadPosFlag := true
    rejectBadClockFlag := true
    rejectPredPosFlag := false
    rejectPredClockFlag := false }

/-- `clearPosition()`: `posStore.clear()`. -/
def clearPosition (s : SP3EphemerisStore) : SP3EphemerisStore :=
  { s with posStore := s.posStore.clear }

/-- `clearClock()`: `clkStore.clear()`. -/
def clearClock (s : SP3EphemerisStore) : SP3EphemerisStore :=
  { s with clkStore := s.clkStore.clear }

/-- `clear()`: `clearPosition(); clearClock();`. -/
def clear (s : SP3EphemerisStore) : SP3EphemerisStore :=
  clearClock (clearPosition s)

/-- `getTimeSystem()`. -/
def getTimeSystem (s : SP3EphemerisStore) : TimeSystem := s.storeTimeSystem

/-- `isPresent(sat)`: `posStore.isPresent(sat) && clkStore.isPresent(sat)`. -/
def isPresent (s : SP3EphemerisStore) (sat : SatID) : Bool :=
  s.posStore.isPresent sat && s.clkStore.isPresent sat

/-- `hasVelocity()`. -/
def hasVelocity (s : SP3EphemerisStore) : Bool := s.posStore.haveVelocity

/-- `useRinexClockData()`: return at once when `useSP3clock` is false, else clear the
flag and the clock store. -/
def useRinexClockData (s : SP3EphemerisStore) : SP3EphemerisStore :=
  if !s.useSP3clock then s
  else clearClock { s with useSP3clock := false }

/-- `useSP3ClockData()`: return at once when `useSP3clock` is true, else set the flag
and clear the clock store. -/
def useSP3ClockData (s : SP3EphemerisStore) : SP3EphemerisStore :=
  if s.useSP3clock then s
  else clearClock { s with useSP3clock := true }

/-- `ndata()` / `ndataPosition()`: `posStore.ndata()`. -/
def ndataPosition (s : SP3EphemerisStore) : Nat := s.posStore.ndata

/-- `ndataClock()`: `clkStore.ndata()`. -/
def ndataClock (s : SP3EphemerisStore) : Nat := s.clkStore.ndata

/-- The later of two instants. -/
def later (a b : CommonTime) : CommonTime := if a < b then b else a

/-- The earlier of two instants. -/
def earlier (a b : CommonTime) : CommonTime := if b < a then b else a

/-- `getPositionInitialTime()`: `posStore.getInitialTime()`. -/
def getPositionInitialTime (s : SP3EphemerisStore) : Option CommonTime :=
  s.posStore.getInitialTime

/-- `getPositionFinalTime()`: `posStore.getFinalTime()`. -/
def getPositionFinalTime (s : SP3EphemerisStore) : Option CommonTime :=
  s.posStore.getFinalTime

/-- `getClockInitialTime()`: `clkStore.getInitialTime()`. -/
def getClockInitialTime (s : SP3EphemerisStore) : Option CommonTime :=
  s.clkStore.getInitialTime

/-- `getClockFinalTime()`: `clkStore.getFinalTime()`. -/
def getClockFinalTime (s : SP3EphemerisStore) : Option CommonTime :=
  s.clkStore.getFinalTime

/-- `getPositionInitialTime(sat)`: `posStore.getInitialTime(sat)`. -/
def getPositionInitialTimeSat (s : SP3EphemerisStore) (sat : SatID) : Option CommonTime :=
  s.posStore.getInitialTimeSat sat

/-- `getPositionFinalTime(sat)`: `posStore.getFinalTime(sat)`. -/
def getPositionFinalTimeSat (s : SP3EphemerisStore) (sat : SatID) : Option CommonTime :=
  s.posStore.getFinalTimeSat sat

/-- `getClockInitialTime(sat)`: `clkStore.getInitialTime(sat)`. -/
def getClockInitialTimeSat (s : SP3EphemerisStore) (sat : SatID) : Option CommonTime :=
  s.clkStore.getInitialTimeSat sat

/-- `getClockFinalTime(sat)`: `clkStore.getFinalTime(sat)`. -/
def getClockFinalTimeSat (s : SP3EphemerisStore) (sat : SatID) : Option CommonTime :=
  s.clkStore.getFinalTimeSat sat

/-- Modelled from the spec: `SP3EphemerisStore::getInitialTime()` (declared in the
header, body not in the sources). The composite returns the later of the two series'
initial times; it fails when a series has no data. -/
def getInitialTime (s : SP3EphemerisStore) : Option CommonTime :=
  match s.posStore.getInitialTime, s.clkStore.getInitialTime with
  | some tp, some tc => some (later tp tc)
  | _, _ => none

/-- Modelled from the spec: `SP3EphemerisStore::getFinalTime()` (declared in the
header, body not in the sources). The composite returns the earlier of the two series'
final times; it fails when a series has no data. -/
def getFinalTime (s : SP3EphemerisStore) : Option CommonTime :=
  match s.posStore.getFinalTime, s.clkStore.getFinalTime with
  | some tp, some tc => some (earlier tp tc)
  | _, _ => none

/-- Modelled from the spec: `SP3EphemerisStore::getInitialTime(sat)` (declared in the
header, body not in the sources): the later of the two initial times of one
satellite. -/
def getInitialTimeSat (s : SP3EphemerisStore) (sat : SatID) : Option CommonTime :=
  match s.posStore.getInitialTimeSat sat, s.clkStore.getInitialTimeSat sat with
  | some tp, some tc => some (later tp tc)
  | _, _ => none

/-- Modelled from the spec: `SP3EphemerisStore::getFinalTime(sat)` (declared in the
header, body not in the sources): the earlier of the two final times of one
satellite. -/
def getFinalTimeSat (s : SP3EphemerisStore) (sat : SatID) : Option CommonTime :=
  match s.posStore.getFinalTimeSat sat, s.clkStore.getFinalTimeSat sat with
  | some tp, some tc => some (earlier tp tc)
  | _, _ => none

/-- Modelled from the spec: `SP3EphemerisStore::getXvt` (declared in the header, body
not in the sources). Verify `sat` is present in both series (otherwise fail "no
ephemeris for satellite"); delegate the position/velocity query to the position store
and propagate its failure; delegate the clock query to the clock store and propagate;
assemble the state with `health = Unused`. -/
def getXvt (s : SP3EphemerisStore) (sat : SatID) (ttag : CommonTime) :
    Except ErrorKind Xvt :=
  if !s.isPresent sat then Except.error ErrorKind.UnknownSatellite
  else
    match s.posStore.getValue sat ttag with
    | Except.error e => Except.error e
    | Except.ok prec =>
      match s.clkStore.getValue sat ttag with
      | Except.error e => Except.error e
      | Except.ok crec =>
        Except.ok
          { x := prec.Pos
            v := prec.Vel
            clkbias := crec.bias
            clkdrift := crec.drift
            health := HealthStatus.Unused }

/-- Modelled from the spec: `SP3EphemerisStore::computeXvt` (declared in the header,
body not in the sources). The non-throwing sibling of `getXvt`: it returns the state
of `getXvt` (health `Unused`), or an aggregate with `health = Unavailable` instead of
failing. -/
def computeXvt (s : SP3EphemerisStore) (id : SatID) (t : CommonTime) : Xvt :=
  match s.getXvt id t with
  | Except.ok xvt => xvt
  | Except.error _ =>
    { x := ⟨0, 0, 0⟩, v := ⟨0, 0, 0⟩, clkbias := 0, clkdrift := 0,
      health := HealthStatus.Unavailable }

/-- Modelled from the spec: `SP3EphemerisStore::getSVHealth` (declared in the header,
body not in the sources). No health determination: the result is "Unused" at all
times, as the header documents. -/
def getSVHealth (_s : SP3EphemerisStore) (_id : SatID) (_t : CommonTime) : HealthStatus :=
  HealthStatus.Unused

/-- Modelled from the spec: `SP3EphemerisStore::getPosition` (declared in the header,
body not in the sources): the position of the position-store query, or its failure. -/
def getPosition (s : SP3EphemerisStore) (sat : SatID) (ttag : CommonTime) :
    Except ErrorKind Triple :=
  match s.posStore.getValue sat ttag with
  | Except.ok prec => Except.ok prec.Pos
  | Except.error e => Except.error e

/-- Modelled from the spec: `SP3EphemerisStore::getVelocity` (declared in the header,
body not in the sources): the velocity of the position-store query, or its failure. -/
def getVelocity (s : SP3EphemerisStore) (sat : SatID) (ttag : CommonTime) :
    Except ErrorKind Triple :=
  match s.posStore.getValue sat ttag with
  | Except.ok prec => Except.ok prec.Vel
  | Except.error e => Except.error e

/-- `edit(tmin, tmax)`: `posStore.edit(tmin, tmax); clkStore.edit(tmin, tmax);`. -/
def edit (s : SP3EphemerisStore) (tmin tmax : CommonTime) : SP3EphemerisStore :=
  { s with posStore := s.posStore.edit tmin tmax, clkStore := s.clkStore.edit tmin tmax }

/-- `getPositionInterpOrder()`: `posStore.getInterpolationOrder()`. -/
def getPositionInterpOrder (s : SP3EphemerisStore) : Nat :=
  s.posStore.getInterpolationOrder

/-- `setPositionInterpOrder(order)`: `posStore.setInterpolationOrder(order)`. -/
def setPositionInterpOrder (s : SP3EphemerisStore) (order : Nat) : SP3EphemerisStore :=
  { s with posStore := s.posStore.setInterpolationOrder order }

/-- `getClockInterpOrder()`: `clkStore.getInterpolationOrder()`. -/
def getClockInterpOrder (s : SP3EphemerisStore) : Nat :=
  s.clkStore.getInterpolationOrder

/-- `setClockInterpOrder(order)`: `clkStore.setInterpolationOrder(order)`. -/
def setClockInterpOrder (s : SP3EphemerisStore) (order : Nat) : SP3EphemerisStore :=
  { s with clkStore := s.clkStore.setInterpolationOrder order }

/-- `setClockLagrangeInterp()`: `clkStore.setLagrangeInterp()`. -/
def setClockLagrangeInterp (s : SP3EphemerisStore) : SP3EphemerisStore :=
  { s with clkStore := s.clkStore.setLagrangeInterp }

/-- `setClockLinearInterp()`: `clkStore.setLinearInterp()`. -/
def setClockLinearInterp (s : SP3EphemerisStore) : SP3EphemerisStore :=
  { s with clkStore := s.clkStore.setLinearInterp }

/-- `isPosDataGapCheck()`: `posStore.isDataGapCheck()`. -/
def isPosDataGapCheck (s : SP3EphemerisStore) : Bool := s.posStore.isDataGapCheck

/-- `setPosGapInterval(interval)`: `posStore.setGapInterval(interval)`. -/
def setPosGapInterval (s : SP3EphemerisStore) (interval : ℚ) : SP3EphemerisStore :=
  { s with posStore := s.posStore.setGapInterval interval }

/-- `setClockGapInterval(interval)`: `clkStore.setGapInterval(interval)`. -/
def setClockGapInterval (s : SP3EphemerisStore) (interval : ℚ) : SP3EphemerisStore :=
  { s with clkStore := s.clkStore.setGapInterval interval }

/-- `disablePosDataGapCheck()`: `posStore.disableDataGapCheck()`. -/
def disablePosDataGapCheck (s : SP3EphemerisStore) : SP3EphemerisStore :=
  { s with posStore := s.posStore.disableDataGapCheck }

/-- `getPositionTimeStep(sat)`: `posStore.nomTimeStep(sat)`. -/
def getPositionTimeStep (s : SP3EphemerisStore) (sat : SatID) : ℚ :=
  s.posStore.nomTimeStep sat

/-- `addPositionRecord(sat, ttag, data)`: `posStore.addPositionRecord(sat, ttag, data)`.
The instants of the model carry no tag of their own, so the insertion does not
throw. -/
def addPositionRecord (s : SP3EphemerisStore) (sat : SatID) (ttag : CommonTime)
    (data : PositionRecord) : SP3EphemerisStore :=
  { s with posStore := s.posStore.addPositionRecord sat ttag data }

/-- `addPositionData(sat, ttag, Pos, sig)`: `posStore.addPositionData(sat, ttag, Pos, sig)`. -/
def addPositionData (s : SP3EphemerisStore) (sat : SatID) (ttag : CommonTime)
    (Pos sig : Triple) : SP3EphemerisStore :=
  { s with posStore := s.posStore.addPositionData sat ttag Pos sig }

/-- `addVelocityData(sat, ttag, Vel, sig)`: `posStore.addVelocityData(sat, ttag, Vel, sig)`. -/
def addVelocityData (s : SP3EphemerisStore) (sat : SatID) (ttag : CommonTime)
    (Vel sig : Triple) : SP3EphemerisStore :=
  { s with posStore := s.posStore.addVelocityData sat ttag Vel sig }

/-- `addClockRecord(sat, ttag, rec)`: `clkStore.addClockRecord(sat, ttag, rec)`. -/
def addClockRecord (s : SP3EphemerisStore) (sat : SatID) (ttag : CommonTime)
    (rec : ClockRecord) : SP3EphemerisStore :=
  { s with clkStore := s.clkStore.addClockRecord sat ttag rec }

/-- Modelled from the spec: reconcile the time system of a header with
`storeTimeSystem`: if the store system is `Any`, adopt the file's; else require
equality or fail. -/
def reconcileTimeSystem (s : SP3EphemerisStore) (h : FileHeader) :
    Except ErrorKind SP3EphemerisStore :=
  if s.storeTimeSystem = TimeSystem.Any then
    Except.ok { s with storeTimeSystem := h.timeSystem }
  else if s.storeTimeSystem = h.timeSystem then Except.ok s
  else Except.error ErrorKind.TimeSystemMismatch

/-- Modelled from the spec: the ingestion coordinator on one record of a
primary-format file. A header is reconciled with the store time system; a position
sample passes the position rejection rules and goes to the position store; a clock
sample goes to the clock store only if the clock store is fed from the primary source
(`fillClockStore`), after the clock rejection rules. -/
def ingestSP3Record (fillClockStore : Bool) (s : SP3EphemerisStore) :
    FileRecord → Except ErrorKind SP3EphemerisStore
  | FileRecord.header h => s.reconcileTimeSystem h
  | FileRecord.position p =>
    if (s.rejectBadPosFlag && p.bad) || (s.rejectPredPosFlag && p.predicted) then
      Except.ok s
    else Except.ok (s.addPositionRecord p.sat p.ttag p.data)
  | FileRecord.clock c =>
    if !fillClockStore then Except.ok s
    else if (s.rejectBadClockFlag && c.bad) || (s.rejectPredClockFlag && c.predicted) then
      Except.ok s
    else Except.ok (s.addClockRecord c.sat c.ttag c.data)

/-- Modelled from the spec: the ingestion coordinator on one record of an
override-format file, which carries header and clock records; the rejection flags are
inert for this source. -/
def ingestClockRecord (s : SP3EphemerisStore) :
    FileRecord → Except ErrorKind SP3EphemerisStore
  | FileRecord.header h => s.reconcileTimeSystem h
  | FileRecord.position _ => Except.ok s
  | FileRecord.clock c => Except.ok (s.addClockRecord c.sat c.ttag c.data)

/-- Run the coordinator over the records of a file, in order, stopping at the first
failure. -/
def ingestRecords (step : SP3EphemerisStore → FileRecord → Except ErrorKind SP3EphemerisStore) :
    SP3EphemerisStore → List FileRecord → Except ErrorKind SP3EphemerisStore
  | s, [] => Except.ok s
  | s, r :: rs =>
    match step s r with
    | Except.ok s2 => ingestRecords step s2 rs
    | Except.error e => Except.error e

/-- Modelled from the spec: `SP3EphemerisStore::loadSP3Store(filename, fillClockStore)`
(declared in the header, body not in the sources). Store the position and, if asked,
the clock data of a primary-format file, check the time system and record the file;
an ingestion error is fatal to the file and leaves the prior state intact. The result
is the state after the call and the error thrown, if any. -/
def loadSP3Store (s : SP3EphemerisStore) (file : ParsedFile) (fillClockStore : Bool) :
    SP3EphemerisStore × Option ErrorKind :=
  match ingestRecords (ingestSP3Record fillClockStore) s file.records with
  | Except.ok s2 => ({ s2 with SP3Files := s2.SP3Files.addFile file.filename }, none)
  | Except.error e => (s, some e)

/-- Modelled from the spec: `SP3EphemerisStore::loadSP3File(filename)` (declared in the
header, body not in the sources): ingestion of a primary-format file; it feeds the
clock series if and only if the clock store is fed from the primary source. -/
def loadSP3File (s : SP3EphemerisStore) (file : ParsedFile) :
    SP3EphemerisStore × Option ErrorKind :=
  s.loadSP3Store file s.useSP3clock

/-- Modelled from the spec: `SP3EphemerisStore::loadRinexClockFile(filename)` (declared
in the header, body not in the sources): ingestion of an override-format file. If the
clock store is set to SP3 data it first calls `useRinexClockData()`; an ingestion
error leaves the prior state intact. -/
def loadRinexClockFile (s : SP3EphemerisStore) (file : ParsedFile) :
    SP3EphemerisStore × Option ErrorKind :=
  match ingestRecords ingestClockRecord s.useRinexClockData file.records with
  | Except.ok s2 => ({ s2 with clkFiles := s2.clkFiles.addFile file.filename }, none)
  | Except.error e => (s, some e)

/-- `nfiles()`: `SP3Files.size() + (useSP3clock ? 0 : clkFiles.size())`. -/
def nfiles (s : SP3EphemerisStore) : Nat :=
  s.SP3Files.size + (if s.useSP3clock then 0 else s.clkFiles.size)

/-- `nSP3files()`: `SP3Files.size()`. -/
def nSP3files (s : SP3EphemerisStore) : Nat := s.SP3Files.size

/-- `nClockfiles()`: `useSP3clock ? SP3Files.size() : clkFiles.size()`. -/
def nClockfiles (s : SP3EphemerisStore) : Nat :=
  if s.useSP3clock then s.SP3Files.size else s.clkFiles.size

/-- One call of the three routines of the header that add position data to the store:
`addPositionRecord`, `addPositionData`, `addVelocityData`. -/
inductive PositionIngestion where
  | record (sat : SatID) (ttag : CommonTime) (data : PositionRecord)
  | position (sat : SatID) (ttag : CommonTime) (Pos sig : Triple)
  | velocity (sat : SatID) (ttag : CommonTime) (Vel sig : Triple)
  deriving DecidableEq, Repr

/-- The call ingests a position sample that lacks the velocity. -/
def PositionIngestion.lacksVelocity : PositionIngestion → Bool
  | PositionIngestion.record _ _ data => data.Vel.isNone
  | PositionIngestion.position _ _ _ _ => true
  | PositionIngestion.velocity _ _ _ _ => false

/-- Perform one call on the store. -/
def applyIngestion (s : SP3EphemerisStore) : PositionIngestion → SP3EphemerisStore
  | PositionIngestion.record sat ttag data => s.addPositionRecord sat ttag data
  | PositionIngestion.position sat ttag Pos sig => s.addPositionData sat ttag Pos sig
  | PositionIngestion.velocity sat ttag Vel sig => s.addVelocityData sat ttag Vel sig

/-- Perform a sequence of calls, in order. -/
def ingestPositions (s : SP3EphemerisStore) (ops : List PositionIngestion) :
    SP3EphemerisStore :=
  ops.foldl applyIngestion s

/-- A position sample of a file passes the position rejection rules of the store. -/
def acceptsPosition (s : SP3EphemerisStore) (p : PositionSample) : Bool :=
  !((s.rejectBadPosFlag && p.bad) || (s.rejectPredPosFlag && p.predicted))

/-- Every position sample of the records that passes the rejection rules carries a
velocity. -/
def acceptedHaveVelocity (s : SP3EphemerisStore) (rs : List FileRecord) : Bool :=
  rs.all (fun r =>
    match r with
    | FileRecord.position p => !(s.acceptsPosition p) || p.data.Vel.isSome
    | _ => true)

/-- `ndataPosition(sat)`: `posStore.ndata(sat)`. -/
def ndataPositionSat (s : SP3EphemerisStore) (sat : SatID) : Nat := s.posStore.ndataSat sat

/-- `ndataClock(sat)`: `clkStore.ndata(sat)`. -/
def ndataClockSat (s : SP3EphemerisStore) (sat : SatID) : Nat :=
  s.clkStore.toTabularSatStore.ndataSat sat

/-- `getPositionSatList()`. -/
def getPositionSatList (s : SP3EphemerisStore) : List SatID := s.posStore.getSatList

/-- `getClockSatList()`. -/
def getClockSatList (s : SP3EphemerisStore) : List SatID := s.clkStore.getSatList

/-- The test `std::find(clkList.begin(), clkList.end(), x) != clkList.end()`. -/
def stdFind (clkList : List SatID) (x : SatID) : Bool :=
  match clkList with
  | [] => false
  | c :: cs => if c = x then true else stdFind cs x

/-- `getSatList()`: walk `posList` in index order and `push_back` every element found
in `clkList`. -/
def getSatList (s : SP3EphemerisStore) : List SatID :=
  let posList := s.posStore.getSatList
  let clkList := s.clkStore.getSatList
  posList.foldl (fun retList p => if stdFind clkList p then retList ++ [p] else retList) []

/-- `std::set<SatID>::insert`: the set is kept as a strictly increasing list; an
element equivalent to one already held is not inserted. -/
def setInsert (x : SatID) : List SatID → List SatID
  | [] => [x]
  | y :: ys =>
    if x < y then x :: y :: ys
    else if y < x then y :: setInsert x ys
    else y :: ys

/-- `getIndexSet()`: the same walk as `getSatList`, inserting into a `std::set`. No
call in the `try` block throws. -/
def getIndexSet (s : SP3EphemerisStore) : List SatID :=
  let posList := s.posStore.getSatList
  let clkList := s.clkStore.getSatList
  posList.foldl (fun retSet p => if stdFind clkList p then setInsert p retSet else retSet) []

end SP3EphemerisStore

/-! ## Example states -/

/-- The satellite `GPS:1`. -/
def satG01 : SatID := { system := 1, id := 1 }

/-- The satellite `GPS:2`. -/
def satG02 : SatID := { system := 1, id := 2 }

/-- The satellite `GLONASS:1`. -/
def satR01 : SatID := { system := 2, id := 1 }

/-- A position sample without velocity. -/
def posRec (x y z : ℚ) : PositionRecord :=
  { Pos := ⟨x, y, z⟩, sigPos := ⟨0, 0, 0⟩, Vel := none, sigVel := none }

/-- A clock sample with a bias only. -/
def clkRec (b : ℚ) : ClockRecord :=
  { bias := b, sig_bias := 0, drift := none, sig_drift := none, accel := none,
    sig_accel := none }

/-- A store loaded from the primary source: positions for `GPS:1`, `GLONASS:1` and
`GPS:2` at 0 s, 900 s and 1800 s, clocks for `GPS:2` and `GPS:1`. -/
def sp3Store : SP3EphemerisStore :=
  { SP3EphemerisStore.new with
    storeTimeSystem := TimeSystem.GPS
    posStore :=
      { tables :=
          [(satG01, [(0, posRec 1 2 3), (900, posRec 2 3 4), (1800, posRec 3 4 5)]),
           (satR01, [(0, posRec 7 7 7), (900, posRec 8 8 8)]),
           (satG02, [(900, posRec 4 5 6), (1800, posRec 5 6 7)])]
        haveVelocity := false
        interpOrder := 2 }
    clkStore :=
      { tables :=
          [(satG02, [(900, clkRec 1), (1800, clkRec 2), (2700, clkRec 3)]),
           (satG01, [(300, clkRec 5), (1500, clkRec 6)])]
        haveClockDrift := false
        interpOrder := 2 }
    SP3Files := { files := ["a.sp3"] } }

/-- A store whose clock series was loaded from the override source. -/
def rinexStore : SP3EphemerisStore :=
  { sp3Store with
    useSP3clock := false
    clkStore :=
      { tables := [(satG01, [(0, clkRec 1), (30, clkRec 2)])]
        haveClockDrift := false
        interpOrder := 2 }
    clkFiles := { files := ["a.clk"] } }

/-- A position sample on the 900 s grid: at grid index `i` the position is
`(i, i², 1)`. -/
def gridRec (i : ℚ) : CommonTime × PositionRecord := (900 * i, posRec i (i * i) 1)

/-- A store with positions for `GPS:1` every 900 s from 0 s to 10800 s, the sample at
5400 s dropped, and the default interpolation order 10. -/
def gapStore : SP3EphemerisStore :=
  { SP3EphemerisStore.new with
    storeTimeSystem := TimeSystem.GPS
    posStore :=
      { tables :=
          [(satG01,
            [gridRec 0, gridRec 1, gridRec 2, gridRec 3, gridRec 4, gridRec 5, gridRec 7,
             gridRec 8, gridRec 9, gridRec 10, gridRec 11, gridRec 12])]
        haveVelocity := false } }

/-- A position sample with a velocity. -/
def posVelRec (x y z : ℚ) : PositionRecord :=
  { Pos := ⟨x, y, z⟩, sigPos := ⟨0, 0, 0⟩, Vel := some ⟨1, 1, 1⟩, sigVel := some ⟨0, 0, 0⟩ }

/-- A primary-format file in GPS time whose only accepted position sample carries a
velocity; the sample without velocity is flagged bad. -/
def sp3FileVel : ParsedFile :=
  { filename := "d.sp3"
    records :=
      [FileRecord.header { timeSystem := TimeSystem.GPS, nominalStep := 900, satCount := 1 },
       FileRecord.position
         { sat := satG01, ttag := 0, data := posVelRec 1 2 3, predicted := false, bad := false },
       FileRecord.position
         { sat := satG01, ttag := 900, data := posRec 2 3 4, predicted := false, bad := true }] }

/-- A primary-format file in GPS time: a position and a clock sample for `GPS:2`. -/
def sp3FileGPS : ParsedFile :=
  { filename := "b.sp3"
    records :=
      [FileRecord.header { timeSystem := TimeSystem.GPS, nominalStep := 900, satCount := 1 },
       FileRecord.position
         { sat := satG02, ttag := 2700, data := posRec 6 7 8, predicted := false, bad := false },
       FileRecord.clock
         { sat := satG02, ttag := 3600, data := clkRec 4, predicted := false, bad := false }] }

/-- The same primary-format file declared in UTC. -/
def sp3FileUTC : ParsedFile :=
  { filename := "c.sp3"
    records :=
      [FileRecord.header { timeSystem := TimeSystem.UTC, nominalStep := 900, satCount := 1 },
       FileRecord.position
         { sat := satG02, ttag := 2700, data := posRec 6 7 8, predicted := false, bad := false },
       FileRecord.clock
         { sat := satG02, ttag := 3600, data := clkRec 4, predicted := false, bad := false }] }

/-- The same override-format file declared in UTC. -/
def clkFileUTC : ParsedFile :=
  { filename := "c.clk"
    records :=
      [FileRecord.header { timeSystem := TimeSystem.UTC, nominalStep := 30, satCount := 1 },
       FileRecord.clock
         { sat := satR01, ttag := 0, data := clkRec 7, predicted := false, bad := true }] }

/-! ## Lemmas on the helper functions -/

namespace SP3EphemerisStore

theorem later_eq_max (a b : CommonTime) : later a b = max a b := by
  unfold later
  rcases lt_trichotomy a b with h | h | h
  · simp [h, max_eq_right (le_of_lt h)]
  · simp [h]
  · simp [not_lt.2 (le_of_lt h), max_eq_left (le_of_lt h)]

theorem earlier_eq_min (a b : CommonTime) : earlier a b = min a b := by
  unfold earlier
  rcases lt_trichotomy a b with h | h | h
  · simp [not_lt.2 (le_of_lt h), min_eq_left (le_of_lt h)]
  · simp [h]
  · simp [h, min_eq_right (le_of_lt h)]

theorem stdFind_eq_true_iff (l : List SatID) (x : SatID) : stdFind l x = true ↔ x ∈ l := by
  induction l with
  | nil => simp [stdFind]
  | cons c cs ih =>
    by_cases h : c = x
    · simp [stdFind, h]
    · have h2 : ¬ x = c := fun e => h e.symm
      simp [stdFind, h, h2, ih]

theorem foldl_push_back (f : SatID → Bool) (l init : List SatID) :
    l.foldl (fun retList p => if f p then retList ++ [p] else retList) init
      = init ++ l.filter f := by
  induction l generalizing init with
  | nil => simp
  | cons a as ih =>
    by_cases h : f a = true
    · simp [List.foldl, h, ih, List.filter]
    · simp [List.foldl, h, ih, List.filter]

theorem SatID_eq_of_not_lt {x y : SatID} (h1 : ¬ x < y) (h2 : ¬ y < x) : x = y := by
  have h1a : ¬ (x.system < y.system ∨ (x.system = y.system ∧ x.id < y.id)) := h1
  have h2a : ¬ (y.system < x.system ∨ (y.system = x.system ∧ y.id < x.id)) := h2
  have hs : x.system = y.system := by omega
  have hi : x.id = y.id := by omega
  cases x; cases y; simp_all

theorem mem_setInsert (x y : SatID) (l : List SatID) :
    y ∈ setInsert x l ↔ y = x ∨ y ∈ l := by
  induction l with
  | nil => simp [setInsert]
  | cons a as ih =>
    by_cases h1 : x < a
    · simp [setInsert, h1]
    · by_cases h2 : a < x
      · simp only [setInsert, h1, h2, if_true, if_false, List.mem_cons, ih]
        tauto
      · have e : x = a := SatID_eq_of_not_lt h1 h2
        subst e
        simp [setInsert, h1]

theorem SatID_lt_trans {x y z : SatID} (h1 : x < y) (h2 : y < z) : x < z := by
  have h1a : x.system < y.system ∨ (x.system = y.system ∧ x.id < y.id) := h1
  have h2a : y.system < z.system ∨ (y.system = z.system ∧ y.id < z.id) := h2
  show x.system < z.system ∨ (x.system = z.system ∧ x.id < z.id)
  omega

theorem SatID_lt_irrefl (x : SatID) : ¬ x < x := by
  intro h
  have ha : x.system < x.system ∨ (x.system = x.system ∧ x.id < x.id) := h
  omega

theorem setInsert_sorted (x : SatID) (l : List SatID)
    (h : l.Pairwise (fun a b => a < b)) : (setInsert x l).Pairwise (fun a b => a < b) := by
  induction l with
  | nil => simp [setInsert]
  | cons a as ih =>
    have ha := List.pairwise_cons.1 h
    by_cases h1 : x < a
    · simp only [setInsert, h1, if_true]
      refine List.pairwise_cons.2 ⟨?_, h⟩
      intro z hz
      rcases List.mem_cons.1 hz with rfl | hz2
      · exact h1
      · exact SatID_lt_trans h1 (ha.1 z hz2)
    · by_cases h2 : a < x
      · simp only [setInsert, h1, h2, if_true, if_false]
        refine List.pairwise_cons.2 ⟨?_, ih ha.2⟩
        intro z hz
        rcases (mem_setInsert x z as).1 hz with rfl | hz2
        · exact h2
        · exact ha.1 z hz2
      · simp only [setInsert, h1, h2, if_false]
        exact h

theorem foldl_setInsert_sorted (f : SatID → Bool) (l init : List SatID)
    (h : init.Pairwise (fun a b => a < b)) :
    (l.foldl (fun retSet p => if f p then setInsert p retSet else retSet) init).Pairwise
      (fun a b => a < b) := by
  induction l generalizing init with
  | nil => simpa using h
  | cons a as ih =>
    by_cases hf : f a = true
    · simp only [List.foldl, hf, if_true]
      exact ih _ (setInsert_sorted a init h)
    · simp only [List.foldl, hf]
      exact ih _ h

theorem mem_foldl_setInsert (f : SatID → Bool) (y : SatID) (l init : List SatID) :
    y ∈ l.foldl (fun retSet p => if f p then setInsert p retSet else retSet) init
      ↔ y ∈ init ∨ (y ∈ l ∧ f y = true) := by
  induction l generalizing init with
  | nil => simp
  | cons a as ih =>
    by_cases h : f a = true
    · simp only [List.foldl, h, if_true, ih, mem_setInsert, List.mem_cons]
      constructor
      · rintro ((rfl | h1) | h2)
        · exact Or.inr ⟨Or.inl rfl, h⟩
        · exact Or.inl h1
        · exact Or.inr ⟨Or.inr h2.1, h2.2⟩
      · rintro (h1 | ⟨rfl | h2, h3⟩)
        · exact Or.inl (Or.inr h1)
        · exact Or.inl (Or.inl rfl)
        · exact Or.inr ⟨h2, h3⟩
    · simp only [List.foldl, h, ih, List.mem_cons]
      constructor
      · rintro (h1 | h2)
        · exact Or.inl h1
        · exact Or.inr ⟨Or.inr h2.1, h2.2⟩
      · rintro (h1 | ⟨rfl | h2, h3⟩)
        · exact Or.inl h1
        · exact absurd h3 h
        · exact Or.inr ⟨h2, h3⟩

end SP3EphemerisStore

namespace TabularSatStore

variable {R : Type}

theorem isPresent_eq_true_iff (st : TabularSatStore R) (sat : SatID) :
    st.isPresent sat = true ↔ sat ∈ st.getSatList := by
  simp [isPresent, getSatList, List.any_eq_true]

theorem clear_tables (st : TabularSatStore R) : st.clear.tables = [] := rfl

theorem foldl_min_le (l : List CommonTime) (a : CommonTime) :
    l.foldl min a ≤ a ∧ ∀ t ∈ l, l.foldl min a ≤ t := by
  induction l generalizing a with
  | nil => simp
  | cons b bs ih =>
    simp only [List.foldl, List.mem_cons]
    refine ⟨le_trans (ih (min a b)).1 (min_le_left a b), ?_⟩
    rintro t (rfl | ht)
    · exact le_trans (ih (min a t)).1 (min_le_right a t)
    · exact (ih (min a b)).2 t ht

theorem le_foldl_max (l : List CommonTime) (a : CommonTime) :
    a ≤ l.foldl max a ∧ ∀ t ∈ l, t ≤ l.foldl max a := by
  induction l generalizing a with
  | nil => simp
  | cons b bs ih =>
    simp only [List.foldl, List.mem_cons]
    refine ⟨le_trans (le_max_left a b) (ih (max a b)).1, ?_⟩
    rintro t (rfl | ht)
    · exact le_trans (le_max_right a t) (ih (max a t)).1
    · exact (ih (max a b)).2 t ht

theorem minTime_le {l : List CommonTime} {m : CommonTime} (h : minTime l = some m) :
    ∀ t ∈ l, m ≤ t := by
  cases l with
  | nil => simp [minTime] at h
  | cons a as =>
    simp only [minTime, Option.some.injEq] at h
    subst h
    intro t ht
    rcases List.mem_cons.1 ht with rfl | h2
    · exact (foldl_min_le as t).1
    · exact (foldl_min_le as a).2 t h2

theorem le_maxTime {l : List CommonTime} {m : CommonTime} (h : maxTime l = some m) :
    ∀ t ∈ l, t ≤ m := by
  cases l with
  | nil => simp [maxTime] at h
  | cons a as =>
    simp only [maxTime, Option.some.injEq] at h
    subst h
    intro t ht
    rcases List.mem_cons.1 ht with rfl | h2
    · exact (le_foldl_max as t).1
    · exact (le_foldl_max as a).2 t h2

theorem minTime_isSome {l : List CommonTime} (h : 0 < l.length) : ∃ m, minTime l = some m := by
  cases l with
  | nil => simp at h
  | cons a as => exact ⟨_, rfl⟩

theorem maxTime_isSome {l : List CommonTime} (h : 0 < l.length) : ∃ m, maxTime l = some m := by
  cases l with
  | nil => simp at h
  | cons a as => exact ⟨_, rfl⟩

theorem allTimes_length (st : TabularSatStore R) : st.allTimes.length = st.ndata := by
  unfold allTimes ndata
  induction st.tables with
  | nil => rfl
  | cons e es ih => simp [ih]

theorem satTimes_of_ndataSat_pos (st : TabularSatStore R) (sat : SatID)
    (h : 0 < st.ndataSat sat) : ∃ l, st.satTimes sat = some l ∧ 0 < l.length := by
  unfold ndataSat at h
  unfold satTimes
  cases hf : st.tables.find? (fun e => e.1 == sat) with
  | none => simp [hf] at h
  | some e =>
    simp only [hf] at h
    exact ⟨_, rfl, by simpa using h⟩

theorem getInitialTime_isSome (st : TabularSatStore R) (h : 0 < st.ndata) :
    ∃ m, st.getInitialTime = some m :=
  minTime_isSome (by rw [allTimes_length]; exact h)

theorem getFinalTime_isSome (st : TabularSatStore R) (h : 0 < st.ndata) :
    ∃ m, st.getFinalTime = some m :=
  maxTime_isSome (by rw [allTimes_length]; exact h)

theorem getInitialTimeSat_isSome (st : TabularSatStore R) (sat : SatID)
    (h : 0 < st.ndataSat sat) : ∃ m, st.getInitialTimeSat sat = some m := by
  obtain ⟨l, h1, h2⟩ := satTimes_of_ndataSat_pos st sat h
  obtain ⟨m, hm⟩ := minTime_isSome h2
  exact ⟨m, by simp [getInitialTimeSat, h1, hm]⟩

theorem getFinalTimeSat_isSome (st : TabularSatStore R) (sat : SatID)
    (h : 0 < st.ndataSat sat) : ∃ m, st.getFinalTimeSat sat = some m := by
  obtain ⟨l, h1, h2⟩ := satTimes_of_ndataSat_pos st sat h
  obtain ⟨m, hm⟩ := maxTime_isSome h2
  exact ⟨m, by simp [getFinalTimeSat, h1, hm]⟩

theorem clear_ndata (st : TabularSatStore R) : st.clear.ndata = 0 := rfl

theorem clear_isPresent (st : TabularSatStore R) (sat : SatID) :
    st.clear.isPresent sat = false := rfl

end TabularSatStore

/-! ## Source switching -/

namespace SP3EphemerisStore

/-- C1: `useRinexClockData` changes nothing when the clock store is already fed from
the override source (`useSP3clock = false`); otherwise the result is the prior state
with `useSP3clock` set to false and the clock series emptied (no table, no sample, no
satellite present). -/
theorem useRinexClockData_contract (s : SP3EphemerisStore) :
    (s.useSP3clock = false → s.useRinexClockData = s) ∧
    (s.useSP3clock = true →
      s.useRinexClockData = { s with useSP3clock := false, clkStore := s.clkStore.clear } ∧
      s.useRinexClockData.useSP3clock = false ∧
      s.useRinexClockData.clkStore.tables = [] ∧
      s.useRinexClockData.ndataClock = 0 ∧
      s.useRinexClockData.getClockSatList = [] ∧
      ∀ sat, s.useRinexClockData.clkStore.isPresent sat = false) := by
  constructor
  · intro h
    simp [useRinexClockData, h]
  · intro h
    simp [useRinexClockData, h, clearClock]
    refine ⟨rfl, rfl, rfl, fun sat => rfl⟩

/-- Witness of C1 on a store already on the override source and on a store fed from the
primary source. -/
theorem useRinexClockData_contract_witness :
    (rinexStore.useSP3clock = false ∧ rinexStore.useRinexClockData = rinexStore) ∧
    (sp3Store.useSP3clock = true ∧ sp3Store.ndataClock = 5 ∧
      sp3Store.useRinexClockData.useSP3clock = false ∧
      sp3Store.useRinexClockData.ndataClock = 0) :=
  ⟨⟨rfl, (useRinexClockData_contract rinexStore).1 rfl⟩,
   ⟨rfl, by decide,
    ((useRinexClockData_contract sp3Store).2 rfl).2.1,
    ((useRinexClockData_contract sp3Store).2 rfl).2.2.2.1⟩⟩

/-- C2: `useSP3ClockData` changes nothing when the clock store is already fed from the
primary source (`useSP3clock = true`); otherwise the result is the prior state with
`useSP3clock` set to true and the clock series emptied. -/
theorem useSP3ClockData_contract (s : SP3EphemerisStore) :
    (s.useSP3clock = true → s.useSP3ClockData = s) ∧
    (s.useSP3clock = false →
      s.useSP3ClockData = { s with useSP3clock := true, clkStore := s.clkStore.clear } ∧
      s.useSP3ClockData.useSP3clock = true ∧
      s.useSP3ClockData.clkStore.tables = [] ∧
      s.useSP3ClockData.ndataClock = 0 ∧
      s.useSP3ClockData.getClockSatList = [] ∧
      ∀ sat, s.useSP3ClockData.clkStore.isPresent sat = false) := by
  constructor
  · intro h
    simp [useSP3ClockData, h]
  · intro h
    simp [useSP3ClockData, h, clearClock]
    refine ⟨rfl, rfl, rfl, fun sat => rfl⟩

/-- Witness of C2 on a store already on the primary source and on a store fed from the
override source. -/
theorem useSP3ClockData_contract_witness :
    (sp3Store.useSP3clock = true ∧ sp3Store.useSP3ClockData = sp3Store) ∧
    (rinexStore.useSP3clock = false ∧ rinexStore.ndataClock = 2 ∧
      rinexStore.useSP3ClockData.useSP3clock = true ∧
      rinexStore.useSP3ClockData.ndataClock = 0) :=
  ⟨⟨rfl, (useSP3ClockData_contract sp3Store).1 rfl⟩,
   ⟨rfl, by decide,
    ((useSP3ClockData_contract rinexStore).2 rfl).2.1,
    ((useSP3ClockData_contract rinexStore).2 rfl).2.2.2.1⟩⟩

/-- C3, as stated, fails: on a store already fed from the override source and holding
two clock samples, `useRinexClockData` returns at once and `ndataClock()` is still 2;
symmetrically `useSP3ClockData` on a store fed from the primary source keeps its 5
clock samples. -/
theorem ndataClock_after_switch_counterexample :
    rinexStore.useRinexClockData.ndataClock = 2 ∧
    sp3Store.useSP3ClockData.ndataClock = 5 ∧
    ¬ (∀ s : SP3EphemerisStore,
        s.useRinexClockData.ndataClock = 0 ∧ s.useSP3ClockData.ndataClock = 0) := by
  refine ⟨by decide, by decide, fun h => ?_⟩
  have h1 := (h rinexStore).1
  revert h1
  decide

/-- C3, amended: a call that changes the source (`useRinexClockData` while
`useSP3clock` is true, `useSP3ClockData` while it is false) leaves `ndataClock()` at
zero; a call that finds its source already selected leaves `ndataClock()` as it was. -/
theorem ndataClock_after_switch (s : SP3EphemerisStore) :
    (s.useSP3clock = true → s.useRinexClockData.ndataClock = 0) ∧
    (s.useSP3clock = false → s.useSP3ClockData.ndataClock = 0) ∧
    (s.useSP3clock = false → s.useRinexClockData.ndataClock = s.ndataClock) ∧
    (s.useSP3clock = true → s.useSP3ClockData.ndataClock = s.ndataClock) := by
  refine ⟨fun h => ?_, fun h => ?_, fun h => ?_, fun h => ?_⟩
  · simp [useRinexClockData, h, clearClock, ndataClock]; rfl
  · simp [useSP3ClockData, h, clearClock, ndataClock]; rfl
  · simp [useRinexClockData, h]
  · simp [useSP3ClockData, h]

/-- Witness of the amended C3 on the two example stores. -/
theorem ndataClock_after_switch_witness :
    (sp3Store.useSP3clock = true ∧ sp3Store.useRinexClockData.ndataClock = 0) ∧
    (rinexStore.useSP3clock = false ∧ rinexStore.useSP3ClockData.ndataClock = 0) ∧
    (rinexStore.useSP3clock = false ∧
      rinexStore.useRinexClockData.ndataClock = rinexStore.ndataClock) ∧
    (sp3Store.useSP3clock = true ∧
      sp3Store.useSP3ClockData.ndataClock = sp3Store.ndataClock) :=
  ⟨⟨rfl, (ndataClock_after_switch sp3Store).1 rfl⟩,
   ⟨rfl, (ndataClock_after_switch rinexStore).2.1 rfl⟩,
   ⟨rfl, (ndataClock_after_switch rinexStore).2.2.1 rfl⟩,
   ⟨rfl, (ndataClock_after_switch sp3Store).2.2.2 rfl⟩⟩

/-! ## Clearing, construction, presence -/

/-- C5: after `clear()` the position and clock sample counts are zero and no satellite
is present (in either series, hence in the composite), while the four rejection flags
and `useSP3clock` keep their values. -/
theorem clear_resets_series_keeps_flags (s : SP3EphemerisStore) :
    s.clear.ndataPosition = 0 ∧ s.clear.ndataClock = 0 ∧
    (∀ sat, s.clear.isPresent sat = false) ∧
    (∀ sat, s.clear.posStore.isPresent sat = false ∧
      s.clear.clkStore.isPresent sat = false) ∧
    s.clear.getSatList = [] ∧
    s.clear.rejectBadPosFlag = s.rejectBadPosFlag ∧
    s.clear.rejectBadClockFlag = s.rejectBadClockFlag ∧
    s.clear.rejectPredPosFlag = s.rejectPredPosFlag ∧
    s.clear.rejectPredClockFlag = s.rejectPredClockFlag ∧
    s.clear.useSP3clock = s.useSP3clock :=
  ⟨rfl, rfl, fun _ => rfl, fun _ => ⟨rfl, rfl⟩, rfl, rfl, rfl, rfl, rfl, rfl⟩

/-- C6: a newly constructed store holds no sample and no satellite, has
`storeTimeSystem = Any`, feeds the clock store from SP3 (`useSP3clock` true), rejects
bad positions and bad clocks and does not reject predicted positions or clocks. -/
theorem new_store_state :
    new.ndataPosition = 0 ∧ new.ndataClock = 0 ∧
    new.getPositionSatList = [] ∧ new.getClockSatList = [] ∧
    (∀ sat, new.isPresent sat = false) ∧
    new.getTimeSystem = TimeSystem.Any ∧
    new.useSP3clock = true ∧
    new.rejectBadPosFlag = true ∧ new.rejectBadClockFlag = true ∧
    new.rejectPredPosFlag = false ∧ new.rejectPredClockFlag = false :=
  ⟨rfl, rfl, rfl, rfl, fun _ => rfl, rfl, rfl, rfl, rfl, rfl, rfl⟩

/-- C7: `isPresent(sat)` is true if and only if the satellite is present in the
position store and present in the clock store, that is if and only if it is in both
satellite lists. -/
theorem isPresent_iff_both (s : SP3EphemerisStore) (sat : SatID) :
    (s.isPresent sat = true ↔
      (s.posStore.isPresent sat = true ∧ s.clkStore.isPresent sat = true)) ∧
    (s.isPresent sat = true ↔
      (sat ∈ s.getPositionSatList ∧ sat ∈ s.getClockSatList)) := by
  constructor
  · simp [isPresent]
  · simp only [isPresent, Bool.and_eq_true, ClockSatStore.isPresent,
      TabularSatStore.isPresent_eq_true_iff, getPositionSatList, getClockSatList,
      ClockSatStore.getSatList]

/-! ## Satellite lists -/

theorem getSatList_eq_filter (s : SP3EphemerisStore) :
    s.getSatList = s.getPositionSatList.filter (fun x => decide (x ∈ s.getClockSatList)) := by
  have h := foldl_push_back (stdFind s.clkStore.getSatList) s.posStore.getSatList []
  simp only [getSatList, getPositionSatList, getClockSatList, h, List.nil_append]
  apply List.filter_congr
  intro x _
  by_cases hx : x ∈ s.clkStore.getSatList
  · simp [hx, (stdFind_eq_true_iff _ _).2 hx]
  · have : stdFind s.clkStore.getSatList x = false := by
      cases hb : stdFind s.clkStore.getSatList x
      · rfl
      · exact absurd ((stdFind_eq_true_iff _ _).1 hb) hx
    simp [hx, this]

/-- C8: a satellite occurs in `getSatList()` if and only if it occurs in the position
satellite list and in the clock satellite list; the result is the position satellite
list filtered in its original order; it has no duplicates when the position list has
none. -/
theorem getSatList_spec (s : SP3EphemerisStore) :
    (∀ sat, sat ∈ s.getSatList ↔ (sat ∈ s.getPositionSatList ∧ sat ∈ s.getClockSatList)) ∧
    s.getSatList = s.getPositionSatList.filter (fun x => decide (x ∈ s.getClockSatList)) ∧
    (s.getSatList).Sublist s.getPositionSatList ∧
    (s.getPositionSatList.Nodup → s.getSatList.Nodup) := by
  have h := getSatList_eq_filter s
  refine ⟨fun sat => ?_, h, ?_, fun hn => ?_⟩
  · rw [h]; simp [List.mem_filter]
  · rw [h]; exact List.filter_sublist _
  · rw [h]; exact hn.filter _

/-- Witness of C8: the example store lists `GPS:1`, `GLONASS:1`, `GPS:2` for positions
and `GPS:2`, `GPS:1` for clocks; the result is `GPS:1`, `GPS:2`. -/
theorem getSatList_spec_witness :
    sp3Store.getPositionSatList = [satG01, satR01, satG02] ∧
    sp3Store.getClockSatList = [satG02, satG01] ∧
    sp3Store.getSatList = [satG01, satG02] ∧
    sp3Store.getPositionSatList.Nodup ∧ sp3Store.getSatList.Nodup :=
  ⟨by decide, by decide, by decide, by decide,
   (getSatList_spec sp3Store).2.2.2 (by decide)⟩

/-- C9: the members of `getIndexSet()` are exactly the elements of `getSatList()`;
both are the satellites present in the position and in the clock store; the set holds
them in strictly increasing order, each once. -/
theorem getIndexSet_mem_iff (s : SP3EphemerisStore) :
    (∀ sat, sat ∈ s.getIndexSet ↔ sat ∈ s.getSatList) ∧
    (∀ sat, sat ∈ s.getIndexSet ↔
      (sat ∈ s.getPositionSatList ∧ sat ∈ s.getClockSatList)) ∧
    s.getIndexSet.Pairwise (fun a b => a < b) ∧ s.getIndexSet.Nodup := by
  have hsorted : s.getIndexSet.Pairwise (fun a b => a < b) :=
    foldl_setInsert_sorted (stdFind s.clkStore.getSatList) s.posStore.getSatList []
      List.Pairwise.nil
  have hnodup : s.getIndexSet.Nodup := by
    unfold List.Nodup
    refine hsorted.imp ?_
    intro a b hab e
    rw [e] at hab
    exact SatID_lt_irrefl b hab
  have key : ∀ sat, sat ∈ s.getIndexSet ↔
      (sat ∈ s.getPositionSatList ∧ sat ∈ s.getClockSatList) := by
    intro sat
    have h := mem_foldl_setInsert (stdFind s.clkStore.getSatList) sat s.posStore.getSatList []
    unfold getIndexSet getPositionSatList getClockSatList
    rw [h]
    simp only [List.not_mem_nil, false_or, stdFind_eq_true_iff]
  refine ⟨fun sat => ?_, key, hsorted, hnodup⟩
  rw [key, getSatList_eq_filter]
  simp [List.mem_filter]

/-! ## Time bounds -/

/-- C10: when both series hold data, `getInitialTime()` succeeds and returns the later
(the maximum) of the position-series and clock-series initial times, `getFinalTime()`
succeeds and returns the earlier (the minimum) of the two final times, so the initial
time is at least each per-series initial time and the final time at most each
per-series final time; the per-satellite overloads do the same for a satellite with
data in both series. -/
theorem time_bounds_intersection (s : SP3EphemerisStore) :
    (0 < s.ndataPosition → 0 < s.ndataClock →
      ∃ pi ci pf cf ti tf,
        s.getPositionInitialTime = some pi ∧ s.getClockInitialTime = some ci ∧
        s.getPositionFinalTime = some pf ∧ s.getClockFinalTime = some cf ∧
        s.getInitialTime = some ti ∧ s.getFinalTime = some tf ∧
        ti = max pi ci ∧ tf = min pf cf ∧
        pi ≤ ti ∧ ci ≤ ti ∧ tf ≤ pf ∧ tf ≤ cf) ∧
    (∀ sat, 0 < s.ndataPositionSat sat → 0 < s.ndataClockSat sat →
      ∃ pi ci pf cf ti tf,
        s.getPositionInitialTimeSat sat = some pi ∧ s.getClockInitialTimeSat sat = some ci ∧
        s.getPositionFinalTimeSat sat = some pf ∧ s.getClockFinalTimeSat sat = some cf ∧
        s.getInitialTimeSat sat = some ti ∧ s.getFinalTimeSat sat = some tf ∧
        ti = max pi ci ∧ tf = min pf cf ∧
        pi ≤ ti ∧ ci ≤ ti ∧ tf ≤ pf ∧ tf ≤ cf) := by
  constructor
  · intro hp hc
    obtain ⟨pi, hpi⟩ := TabularSatStore.getInitialTime_isSome s.posStore hp
    obtain ⟨ci, hci⟩ := TabularSatStore.getInitialTime_isSome s.clkStore.toTabularSatStore hc
    obtain ⟨pf, hpf⟩ := TabularSatStore.getFinalTime_isSome s.posStore hp
    obtain ⟨cf, hcf⟩ := TabularSatStore.getFinalTime_isSome s.clkStore.toTabularSatStore hc
    refine ⟨pi, ci, pf, cf, max pi ci, min pf cf, hpi, hci, hpf, hcf, ?_, ?_, rfl, rfl,
      le_max_left _ _, le_max_right _ _, min_le_left _ _, min_le_right _ _⟩
    · simp [getInitialTime, hpi, hci, later_eq_max]
    · simp [getFinalTime, hpf, hcf, earlier_eq_min]
  · intro sat hp hc
    obtain ⟨pi, hpi⟩ := TabularSatStore.getInitialTimeSat_isSome s.posStore sat hp
    obtain ⟨ci, hci⟩ :=
      TabularSatStore.getInitialTimeSat_isSome s.clkStore.toTabularSatStore sat hc
    obtain ⟨pf, hpf⟩ := TabularSatStore.getFinalTimeSat_isSome s.posStore sat hp
    obtain ⟨cf, hcf⟩ :=
      TabularSatStore.getFinalTimeSat_isSome s.clkStore.toTabularSatStore sat hc
    refine ⟨pi, ci, pf, cf, max pi ci, min pf cf, hpi, hci, hpf, hcf, ?_, ?_, rfl, rfl,
      le_max_left _ _, le_max_right _ _, min_le_left _ _, min_le_right _ _⟩
    · simp [getInitialTimeSat, hpi, hci, later_eq_max]
    · simp [getFinalTimeSat, hpf, hcf, earlier_eq_min]

/-- Witness of C10: in the example store the positions span 0 s to 1800 s and the
clocks 300 s to 2700 s (for `GPS:1`: 0 s to 1800 s and 300 s to 1500 s). -/
theorem time_bounds_intersection_witness :
    (0 < sp3Store.ndataPosition ∧ 0 < sp3Store.ndataClock ∧
      sp3Store.getInitialTime = some 300 ∧ sp3Store.getFinalTime = some 1800 ∧
      ∃ pi ci pf cf ti tf,
        sp3Store.getPositionInitialTime = some pi ∧ sp3Store.getClockInitialTime = some ci ∧
        sp3Store.getPositionFinalTime = some pf ∧ sp3Store.getClockFinalTime = some cf ∧
        sp3Store.getInitialTime = some ti ∧ sp3Store.getFinalTime = some tf ∧
        ti = max pi ci ∧ tf = min pf cf ∧
        pi ≤ ti ∧ ci ≤ ti ∧ tf ≤ pf ∧ tf ≤ cf) ∧
    (0 < sp3Store.ndataPositionSat satG01 ∧ 0 < sp3Store.ndataClockSat satG01 ∧
      sp3Store.getInitialTimeSat satG01 = some 300 ∧
      sp3Store.getFinalTimeSat satG01 = some 1500 ∧
      ∃ pi ci pf cf ti tf,
        sp3Store.getPositionInitialTimeSat satG01 = some pi ∧
        sp3Store.getClockInitialTimeSat satG01 = some ci ∧
        sp3Store.getPositionFinalTimeSat satG01 = some pf ∧
        sp3Store.getClockFinalTimeSat satG01 = some cf ∧
        sp3Store.getInitialTimeSat satG01 = some ti ∧
        sp3Store.getFinalTimeSat satG01 = some tf ∧
        ti = max pi ci ∧ tf = min pf cf ∧
        pi ≤ ti ∧ ci ≤ ti ∧ tf ≤ pf ∧ tf ≤ cf) :=
  ⟨⟨by decide, by decide, by decide, by decide,
    (time_bounds_intersection sp3Store).1 (by decide) (by decide)⟩,
   ⟨by decide, by decide, by decide, by decide,
    (time_bounds_intersection sp3Store).2 satG01 (by decide) (by decide)⟩⟩

/-! ## State query after a source switch -/

theorem isPresent_useRinexClockData (s : SP3EphemerisStore) (sat : SatID)
    (h : s.useSP3clock = true) : s.useRinexClockData.isPresent sat = false := by
  have hc : s.useRinexClockData.clkStore.isPresent sat = false := by
    simp [useRinexClockData, h, clearClock]
    rfl
  simp [isPresent, hc]

/-- C4, as stated, fails: the example store is loaded from the primary source and its
position series covers 450 s for `GPS:1` (samples from 0 s to 1800 s, the position
query at 450 s succeeds, and so does `getXvt` before the switch); after
`useRinexClockData()` the query `getXvt(GPS:1, 450)` fails, but with
`UnknownSatellite`, not with `OutOfRange`. -/
theorem getXvt_after_override_switch_counterexample :
    sp3Store.useSP3clock = true ∧
    sp3Store.getPositionInitialTimeSat satG01 = some 0 ∧
    sp3Store.getPositionFinalTimeSat satG01 = some 1800 ∧
    (∃ v, sp3Store.useRinexClockData.posStore.getValue satG01 450 = Except.ok v) ∧
    (∃ v, sp3Store.getXvt satG01 450 = Except.ok v) ∧
    sp3Store.useRinexClockData.getXvt satG01 450
      = Except.error ErrorKind.UnknownSatellite ∧
    sp3Store.useRinexClockData.getXvt satG01 450 ≠ Except.error ErrorKind.OutOfRange := by
  have hp : sp3Store.posStore.getTableInterval satG01 450 (sp3Store.posStore.interpOrder / 2)
      = Except.ok [(0, posRec 1 2 3), (900, posRec 2 3 4)] := by decide
  have hc : sp3Store.clkStore.toTabularSatStore.getTableInterval satG01 450
      (sp3Store.clkStore.interpOrder / 2)
      = Except.ok [(300, clkRec 5), (1500, clkRec 6)] := by decide
  have hpres : sp3Store.isPresent satG01 = true := by decide
  have hlag : sp3Store.clkStore.interpType = InterpType.Lagrange := rfl
  refine ⟨rfl, by decide, by decide, ?_, ?_, by decide, by decide⟩
  · have e : sp3Store.useRinexClockData.posStore = sp3Store.posStore := rfl
    rw [e]
    unfold PositionSatStore.getValue
    rw [hp]
    exact ⟨_, rfl⟩
  · unfold getXvt PositionSatStore.getValue ClockSatStore.getValue
    rw [hpres, hp, hlag]
    simp only [hc]
    exact ⟨_, rfl⟩

/-- C4, amended: for a store fed from the primary source (`useSP3clock` true), after
`useRinexClockData()` the clock series holds no satellite, so `getXvt` fails for every
satellite and every time, whatever the position series covers, and the failure kind is
`UnknownSatellite` ("no ephemeris for satellite"). -/
theorem getXvt_after_override_switch (s : SP3EphemerisStore) (sat : SatID)
    (ttag : CommonTime) (h : s.useSP3clock = true) :
    s.useRinexClockData.clkStore.isPresent sat = false ∧
    s.useRinexClockData.isPresent sat = false ∧
    s.useRinexClockData.getXvt sat ttag = Except.error ErrorKind.UnknownSatellite := by
  have hp := isPresent_useRinexClockData s sat h
  refine ⟨?_, hp, ?_⟩
  · simp [useRinexClockData, h, clearClock]
    rfl
  · simp [getXvt, hp]

/-- Witness of the amended C4 on the example store, for `GPS:1` at 450 s. -/
theorem getXvt_after_override_switch_witness :
    sp3Store.useSP3clock = true ∧
    sp3Store.useRinexClockData.clkStore.isPresent satG01 = false ∧
    sp3Store.useRinexClockData.isPresent satG01 = false ∧
    sp3Store.useRinexClockData.getXvt satG01 450
      = Except.error ErrorKind.UnknownSatellite :=
  ⟨rfl, getXvt_after_override_switch sp3Store satG01 450 rfl⟩

/-! ## The non-throwing query and the health annotation -/

theorem getXvt_health (s : SP3EphemerisStore) (sat : SatID) (ttag : CommonTime) (xvt : Xvt)
    (h : s.getXvt sat ttag = Except.ok xvt) : xvt.health = HealthStatus.Unused := by
  unfold getXvt at h
  split at h
  · cases h
  · split at h
    · cases h
    · split at h
      · cases h
      · cases h
        rfl

/-- C11: `computeXvt(sat, t)` is a total function; the health of its result is
`Unavailable` exactly when `getXvt(sat, t)` fails; when `getXvt` succeeds it returns
the same state (position, velocity, clock bias and drift) with health `Unused`; no
other health value is ever returned. -/
theorem computeXvt_flattens_failures (s : SP3EphemerisStore) (sat : SatID) (t : CommonTime) :
    ((s.computeXvt sat t).health = HealthStatus.Unavailable ↔
      ∃ e, s.getXvt sat t = Except.error e) ∧
    (∀ xvt, s.getXvt sat t = Except.ok xvt →
      s.computeXvt sat t = xvt ∧
      (s.computeXvt sat t).x = xvt.x ∧ (s.computeXvt sat t).v = xvt.v ∧
      (s.computeXvt sat t).clkbias = xvt.clkbias ∧
      (s.computeXvt sat t).clkdrift = xvt.clkdrift ∧
      (s.computeXvt sat t).health = HealthStatus.Unused) ∧
    ((s.computeXvt sat t).health = HealthStatus.Unavailable ∨
      (s.computeXvt sat t).health = HealthStatus.Unused) := by
  cases hx : s.getXvt sat t with
  | error e =>
    refine ⟨⟨fun _ => ⟨e, rfl⟩, fun _ => ?_⟩, fun xvt h => (by cases h), Or.inl ?_⟩
    · simp [computeXvt, hx]
    · simp [computeXvt, hx]
  | ok xvt =>
    have hh := getXvt_health s sat t xvt hx
    have hc : s.computeXvt sat t = xvt := by simp [computeXvt, hx]
    refine ⟨⟨fun h => ?_, fun h => ?_⟩, fun y hy => ?_, Or.inr (by rw [hc]; exact hh)⟩
    · rw [hc, hh] at h
      cases h
    · obtain ⟨e, he⟩ := h
      cases he
    · cases hy
      exact ⟨hc, by rw [hc], by rw [hc], by rw [hc], by rw [hc], by rw [hc]; exact hh⟩

/-- Witness of C11: in the example store `getXvt(GPS:1, 450)` succeeds and `computeXvt`
returns the same state with health `Unused`; `GLONASS:1` has no clock data and
`computeXvt` returns health `Unavailable`. -/
theorem computeXvt_flattens_failures_witness :
    (sp3Store.getXvt satG01 450 =
        Except.ok ⟨⟨3 / 2, 5 / 2, 7 / 2⟩, ⟨1 / 900, 1 / 900, 1 / 900⟩, 41 / 8, 1 / 1200,
          HealthStatus.Unused⟩ ∧
      sp3Store.computeXvt satG01 450 =
        ⟨⟨3 / 2, 5 / 2, 7 / 2⟩, ⟨1 / 900, 1 / 900, 1 / 900⟩, 41 / 8, 1 / 1200,
          HealthStatus.Unused⟩) ∧
    ((∃ e, sp3Store.getXvt satR01 450 = Except.error e) ∧
      (sp3Store.computeXvt satR01 450).health = HealthStatus.Unavailable) :=
  ⟨⟨by decide!,
    ((computeXvt_flattens_failures sp3Store satG01 450).2.1 _ (by decide!)).1⟩,
   ⟨⟨ErrorKind.UnknownSatellite, by decide⟩,
    (computeXvt_flattens_failures sp3Store satR01 450).1.2
      ⟨ErrorKind.UnknownSatellite, by decide⟩⟩⟩

/-- C12: `getXvt(sat, t)` fails with `UnknownSatellite` ("no ephemeris for satellite")
whenever `sat` is absent from the position series or from the clock series; whenever
it succeeds the returned state has health `Unused`, never `Healthy` or `Unhealthy`. -/
theorem getXvt_unknown_satellite_and_health (s : SP3EphemerisStore) (sat : SatID)
    (ttag : CommonTime) :
    ((s.posStore.isPresent sat = false ∨ s.clkStore.isPresent sat = false) →
      s.getXvt sat ttag = Except.error ErrorKind.UnknownSatellite) ∧
    (∀ xvt, s.getXvt sat ttag = Except.ok xvt →
      xvt.health = HealthStatus.Unused ∧ xvt.health ≠ HealthStatus.Healthy ∧
      xvt.health ≠ HealthStatus.Unhealthy) := by
  constructor
  · intro h
    have hp : s.isPresent sat = false := by
      rcases h with h | h
      · simp [isPresent, h]
      · simp [isPresent, h]
    simp [getXvt, hp]
  · intro xvt h
    have hh := getXvt_health s sat ttag xvt h
    rw [hh]
    exact ⟨rfl, by decide, by decide⟩

/-- Witness of C12: `GLONASS:1` is absent from the clock series of the example store
and `getXvt` fails with `UnknownSatellite`; for `GPS:1` at 450 s it succeeds with
health `Unused`. -/
theorem getXvt_unknown_satellite_and_health_witness :
    (sp3Store.clkStore.isPresent satR01 = false ∧
      sp3Store.getXvt satR01 450 = Except.error ErrorKind.UnknownSatellite) ∧
    (sp3Store.getXvt satG01 450 =
        Except.ok ⟨⟨3 / 2, 5 / 2, 7 / 2⟩, ⟨1 / 900, 1 / 900, 1 / 900⟩, 41 / 8, 1 / 1200,
          HealthStatus.Unused⟩ ∧
      HealthStatus.Unused ≠ HealthStatus.Healthy ∧
      HealthStatus.Unused ≠ HealthStatus.Unhealthy) :=
  ⟨⟨by decide,
    (getXvt_unknown_satellite_and_health sp3Store satR01 450).1 (Or.inr (by decide))⟩,
   ⟨by decide!,
    ((getXvt_unknown_satellite_and_health sp3Store satG01 450).2
      ⟨⟨3 / 2, 5 / 2, 7 / 2⟩, ⟨1 / 900, 1 / 900, 1 / 900⟩, 41 / 8, 1 / 1200,
        HealthStatus.Unused⟩ (by decide!)).2⟩⟩

/-- C13: `getSVHealth(sat, t)` returns `Unused` for every satellite, every time and
every store state, in particular for an empty store and for a satellite that is not
present. -/
theorem getSVHealth_always_unused :
    (∀ (s : SP3EphemerisStore) (sat : SatID) (t : CommonTime),
      s.getSVHealth sat t = HealthStatus.Unused) ∧
    (∀ (sat : SatID) (t : CommonTime), new.getSVHealth sat t = HealthStatus.Unused) ∧
    (∀ (s : SP3EphemerisStore) (sat : SatID) (t : CommonTime),
      s.isPresent sat = false → s.getSVHealth sat t = HealthStatus.Unused) :=
  ⟨fun _ _ _ => rfl, fun _ _ => rfl, fun _ _ _ _ => rfl⟩

/-! ## Editing -/

theorem getTable_edit {R : Type} (st : TabularSatStore R) (tmin tmax : CommonTime)
    (sat : SatID) :
    (st.edit tmin tmax).getTable sat =
      (st.getTable sat).map
        (fun tbl => tbl.filter (fun p => decide (tmin ≤ p.1) && decide (p.1 ≤ tmax))) := by
  unfold TabularSatStore.getTable TabularSatStore.edit
  simp only [List.find?_map, Option.map_map]
  rfl

/-- C15: `edit(tmin, tmax)` applies the same bounds to the position series and to the
clock series; in each, for every satellite, the samples after the call are the samples
held before whose instant lies inside `[tmin, tmax]`, in their order: every sample
outside is dropped and every sample inside is kept. The satellite lists, flags and
configuration are untouched. -/
theorem edit_drops_outside_keeps_inside (s : SP3EphemerisStore) (tmin tmax : CommonTime) :
    (∀ sat, (s.edit tmin tmax).posStore.getTable sat =
      (s.posStore.getTable sat).map
        (fun tbl => tbl.filter (fun p => decide (tmin ≤ p.1) && decide (p.1 ≤ tmax)))) ∧
    (∀ sat, (s.edit tmin tmax).clkStore.getTable sat =
      (s.clkStore.getTable sat).map
        (fun tbl => tbl.filter (fun p => decide (tmin ≤ p.1) && decide (p.1 ≤ tmax)))) ∧
    (∀ sat tbl, s.posStore.getTable sat = some tbl →
      ∃ tbl2, (s.edit tmin tmax).posStore.getTable sat = some tbl2 ∧
        ∀ p, p ∈ tbl2 ↔ (p ∈ tbl ∧ tmin ≤ p.1 ∧ p.1 ≤ tmax)) ∧
    (∀ sat tbl, s.clkStore.getTable sat = some tbl →
      ∃ tbl2, (s.edit tmin tmax).clkStore.getTable sat = some tbl2 ∧
        ∀ p, p ∈ tbl2 ↔ (p ∈ tbl ∧ tmin ≤ p.1 ∧ p.1 ≤ tmax)) ∧
    (s.edit tmin tmax).getPositionSatList = s.getPositionSatList ∧
    (s.edit tmin tmax).getClockSatList = s.getClockSatList ∧
    (s.edit tmin tmax) =
      { s with
        posStore := { s.posStore with tables := (s.posStore.edit tmin tmax).tables }
        clkStore :=
          { s.clkStore with tables := (s.clkStore.toTabularSatStore.edit tmin tmax).tables } } := by
  have hp := fun sat => getTable_edit s.posStore tmin tmax sat
  have hc := fun sat => getTable_edit s.clkStore.toTabularSatStore tmin tmax sat
  refine ⟨hp, hc, ?_, ?_, ?_, ?_, rfl⟩
  · intro sat tbl h
    refine ⟨_, by rw [show (s.edit tmin tmax).posStore = s.posStore.edit tmin tmax from rfl,
      hp sat, h]; rfl, fun p => ?_⟩
    simp [List.mem_filter]
  · intro sat tbl h
    refine ⟨_, by rw [show (s.edit tmin tmax).clkStore.toTabularSatStore =
      s.clkStore.toTabularSatStore.edit tmin tmax from rfl, hc sat, h]; rfl, fun p => ?_⟩
    simp [List.mem_filter]
  · simp [getPositionSatList, edit, TabularSatStore.edit, TabularSatStore.getSatList]
  · simp [getClockSatList, edit, ClockSatStore.edit, ClockSatStore.getSatList,
      TabularSatStore.edit, TabularSatStore.getSatList]

/-- Witness of C15: editing the example store to `[300, 1500]` leaves `GPS:1` with the
position sample at 900 s and the clock samples at 300 s and 1500 s. -/
theorem edit_drops_outside_keeps_inside_witness :
    sp3Store.posStore.getTable satG01 =
      some [(0, posRec 1 2 3), (900, posRec 2 3 4), (1800, posRec 3 4 5)] ∧
    (sp3Store.edit 300 1500).posStore.getTable satG01 = some [(900, posRec 2 3 4)] ∧
    (sp3Store.edit 300 1500).clkStore.getTable satG01 =
      some [(300, clkRec 5), (1500, clkRec 6)] ∧
    (∃ tbl2, (sp3Store.edit 300 1500).posStore.getTable satG01 = some tbl2 ∧
      ∀ p, p ∈ tbl2 ↔
        (p ∈ [((0 : ℚ), posRec 1 2 3), (900, posRec 2 3 4), (1800, posRec 3 4 5)] ∧
          300 ≤ p.1 ∧ p.1 ≤ 1500)) :=
  ⟨by decide, by decide, by decide,
   (edit_drops_outside_keeps_inside sp3Store 300 1500).2.2.1 satG01 _ (by decide)⟩

/-! ## Interpolation order -/

/-- C16, as stated, fails: `setPositionInterpOrder(0)` leaves the order at 0, which is
even and equal to `n` but not `≥ 2`; for the largest unsigned value, which is odd,
`n + 1` is not an unsigned value and the order is 0; and with the clock interpolation
type set to linear `setClockInterpOrder(4)` is ignored, the order staying at its
default 10. -/
theorem interp_order_counterexample :
    (new.setPositionInterpOrder 0).getPositionInterpOrder = 0 ∧
    ¬ (2 ≤ (new.setPositionInterpOrder 0).getPositionInterpOrder) ∧
    4294967295 < uintSize ∧
    (new.setPositionInterpOrder 4294967295).getPositionInterpOrder = 0 ∧
    ((new.setClockLinearInterp).setClockInterpOrder 4).getClockInterpOrder = 10 ∧
    ¬ (∀ (s : SP3EphemerisStore) (n : Nat), n < uintSize →
        2 ≤ (s.setPositionInterpOrder n).getPositionInterpOrder ∧
        (n % 2 = 0 → (s.setPositionInterpOrder n).getPositionInterpOrder = n)) := by
  refine ⟨by decide, by decide, by decide, by decide, by decide, fun h => ?_⟩
  have h0 := (h new 0 (by decide)).1
  revert h0
  decide

/-- C16, amended: for every unsigned `n`, after `setPositionInterpOrder(n)` the value
of `getPositionInterpOrder()` is even and equal to `n` when `n` is even; when `n` is
odd and below the largest unsigned value it is `n + 1`; it is `≥ 2` whenever `n ≥ 1`
is below the largest unsigned value; the default is 10 for both orders;
`setClockInterpOrder`/`getClockInterpOrder` follow the same discipline while the clock
interpolation type is Lagrange, and the call is ignored while it is linear. -/
theorem interp_order_forced_even (s : SP3EphemerisStore) (n : Nat) (hn : n < uintSize) :
    ((s.setPositionInterpOrder n).getPositionInterpOrder % 2 = 0 ∧
      (n % 2 = 0 → (s.setPositionInterpOrder n).getPositionInterpOrder = n) ∧
      (n % 2 = 1 → n + 1 < uintSize →
        (s.setPositionInterpOrder n).getPositionInterpOrder = n + 1) ∧
      (1 ≤ n → n + 1 < uintSize →
        2 ≤ (s.setPositionInterpOrder n).getPositionInterpOrder)) ∧
    (s.clkStore.interpType = InterpType.Lagrange →
      (s.setClockInterpOrder n).getClockInterpOrder % 2 = 0 ∧
      (n % 2 = 0 → (s.setClockInterpOrder n).getClockInterpOrder = n) ∧
      (n % 2 = 1 → n + 1 < uintSize →
        (s.setClockInterpOrder n).getClockInterpOrder = n + 1) ∧
      (1 ≤ n → n + 1 < uintSize → 2 ≤ (s.setClockInterpOrder n).getClockInterpOrder)) ∧
    (s.clkStore.interpType = InterpType.Linear → s.setClockInterpOrder n = s) ∧
    new.getPositionInterpOrder = 10 ∧ new.getClockInterpOrder = 10 := by
  have hu : uintSize = 4294967296 := by decide
  have hp : (s.setPositionInterpOrder n).getPositionInterpOrder
      = (2 * ((n + 1) / 2)) % uintSize := rfl
  rw [hu] at hn
  refine ⟨?_, ?_, ?_, rfl, rfl⟩
  · rw [hp, hu]
    refine ⟨by omega, fun h => by omega, fun h h2 => by omega, fun h h2 => by omega⟩
  · intro hl
    have hc : (s.setClockInterpOrder n).getClockInterpOrder
        = (2 * ((n + 1) / 2)) % uintSize := by
      simp [setClockInterpOrder, getClockInterpOrder, ClockSatStore.setInterpolationOrder,
        ClockSatStore.getInterpolationOrder, TabularSatStore.setInterpolationOrder, hl]
    rw [hc, hu]
    refine ⟨by omega, fun h => by omega, fun h h2 => by omega, fun h h2 => by omega⟩
  · intro hl
    simp [setClockInterpOrder, ClockSatStore.setInterpolationOrder, hl]

/-- Witness of the amended C16: order 7 is rounded up to 8 and order 6 is kept, for the
position table and, in Lagrange mode, for the clock table; in linear mode the call
changes nothing. -/
theorem interp_order_forced_even_witness :
    (7 < uintSize ∧ 7 % 2 = 1 ∧ 7 + 1 < uintSize ∧
      (sp3Store.setPositionInterpOrder 7).getPositionInterpOrder = 7 + 1) ∧
    (6 < uintSize ∧ 6 % 2 = 0 ∧ (sp3Store.setPositionInterpOrder 6).getPositionInterpOrder = 6) ∧
    (1 ≤ 7 ∧ 2 ≤ (sp3Store.setPositionInterpOrder 7).getPositionInterpOrder) ∧
    (sp3Store.clkStore.interpType = InterpType.Lagrange ∧
      (sp3Store.setClockInterpOrder 7).getClockInterpOrder = 7 + 1) ∧
    ((sp3Store.setClockLinearInterp).clkStore.interpType = InterpType.Linear ∧
      (sp3Store.setClockLinearInterp).setClockInterpOrder 7 = sp3Store.setClockLinearInterp) :=
  ⟨⟨by decide, rfl, by decide,
    (interp_order_forced_even sp3Store 7 (by decide)).1.2.2.1 rfl (by decide)⟩,
   ⟨by decide, rfl, (interp_order_forced_even sp3Store 6 (by decide)).1.2.1 rfl⟩,
   ⟨by decide, (interp_order_forced_even sp3Store 7 (by decide)).1.2.2.2 (by decide) (by decide)⟩,
   ⟨rfl, ((interp_order_forced_even sp3Store 7 (by decide)).2.1 rfl).2.2.1 rfl (by decide)⟩,
   ⟨rfl, (interp_order_forced_even sp3Store.setClockLinearInterp 7 (by decide)).2.2.1 rfl⟩⟩

/-! ## Ingestion: time-system consistency -/

theorem useRinexClockData_storeTimeSystem (s : SP3EphemerisStore) :
    s.useRinexClockData.storeTimeSystem = s.storeTimeSystem := by
  unfold useRinexClockData
  split <;> rfl

theorem ingestSP3Record_sample (b : Bool) (s : SP3EphemerisStore) (r : FileRecord)
    (hr : ∀ h, r ≠ FileRecord.header h) :
    ∃ s2, ingestSP3Record b s r = Except.ok s2 ∧ s2.storeTimeSystem = s.storeTimeSystem := by
  cases r with
  | header h => exact absurd rfl (hr h)
  | position p =>
    simp only [ingestSP3Record]
    split
    · exact ⟨s, rfl, rfl⟩
    · exact ⟨_, rfl, rfl⟩
  | clock c =>
    simp only [ingestSP3Record]
    split
    · exact ⟨s, rfl, rfl⟩
    · split
      · exact ⟨s, rfl, rfl⟩
      · exact ⟨_, rfl, rfl⟩

theorem ingestClockRecord_sample (s : SP3EphemerisStore) (r : FileRecord)
    (hr : ∀ h, r ≠ FileRecord.header h) :
    ∃ s2, ingestClockRecord s r = Except.ok s2 ∧ s2.storeTimeSystem = s.storeTimeSystem := by
  cases r with
  | header h => exact absurd rfl (hr h)
  | position p => exact ⟨s, rfl, rfl⟩
  | clock c => exact ⟨_, rfl, rfl⟩

theorem ingestRecords_mismatch
    (step : SP3EphemerisStore → FileRecord → Except ErrorKind SP3EphemerisStore)
    (h1 : ∀ s h, step s (FileRecord.header h) = s.reconcileTimeSystem h)
    (h2 : ∀ s r, (∀ h, r ≠ FileRecord.header h) →
      ∃ s2, step s r = Except.ok s2 ∧ s2.storeTimeSystem = s.storeTimeSystem)
    (rs : List FileRecord) (s : SP3EphemerisStore) (hs : s.storeTimeSystem ≠ TimeSystem.Any)
    (hm : ∃ h, FileRecord.header h ∈ rs ∧ h.timeSystem ≠ s.storeTimeSystem) :
    ingestRecords step s rs = Except.error ErrorKind.TimeSystemMismatch := by
  induction rs generalizing s with
  | nil =>
    obtain ⟨h, hmem, _⟩ := hm
    simp at hmem
  | cons r rs ih =>
    obtain ⟨h, hmem, hne⟩ := hm
    unfold ingestRecords
    by_cases hr : ∃ g, r = FileRecord.header g
    · obtain ⟨g, rfl⟩ := hr
      rw [h1]
      by_cases hg : s.storeTimeSystem = g.timeSystem
      · have hstep : s.reconcileTimeSystem g = Except.ok s := by
          unfold reconcileTimeSystem
          rw [if_neg hs, if_pos hg]
        rw [hstep]
        simp only
        apply ih s hs
        refine ⟨h, ?_, hne⟩
        rcases List.mem_cons.1 hmem with e | e
        · injection e with e2
          rw [e2, ← hg] at hne
          exact absurd rfl hne
        · exact e
      · unfold reconcileTimeSystem
        rw [if_neg hs, if_neg hg]
    · have hr2 : ∀ g, r ≠ FileRecord.header g := fun g e => hr ⟨g, e⟩
      obtain ⟨s2, hs2, hts⟩ := h2 s r hr2
      rw [hs2]
      simp only
      apply ih s2 (by rw [hts]; exact hs)
      refine ⟨h, ?_, by rw [hts]; exact hne⟩
      rcases List.mem_cons.1 hmem with e | e
      · exact absurd e.symm (hr2 h)
      · exact e

theorem ingestRecords_adopt
    (step : SP3EphemerisStore → FileRecord → Except ErrorKind SP3EphemerisStore)
    (h1 : ∀ s h, step s (FileRecord.header h) = s.reconcileTimeSystem h)
    (h2 : ∀ s r, (∀ h, r ≠ FileRecord.header h) →
      ∃ s2, step s r = Except.ok s2 ∧ s2.storeTimeSystem = s.storeTimeSystem)
    (T : TimeSystem) (rs : List FileRecord) (s : SP3EphemerisStore)
    (hs : s.storeTimeSystem = TimeSystem.Any ∨ s.storeTimeSystem = T)
    (hall : ∀ h, FileRecord.header h ∈ rs → h.timeSystem = T) :
    ∃ s2, ingestRecords step s rs = Except.ok s2 ∧
      (s.storeTimeSystem = T → s2.storeTimeSystem = T) ∧
      ((∃ h, FileRecord.header h ∈ rs) → s2.storeTimeSystem = T) := by
  induction rs generalizing s with
  | nil =>
    refine ⟨s, rfl, fun h => h, ?_⟩
    rintro ⟨h, hmem⟩
    simp at hmem
  | cons r rs ih =>
    unfold ingestRecords
    by_cases hr : ∃ g, r = FileRecord.header g
    · obtain ⟨g, rfl⟩ := hr
      have hg : g.timeSystem = T := hall g (List.mem_cons_self _ _)
      have hstep : ∃ s1, s.reconcileTimeSystem g = Except.ok s1 ∧ s1.storeTimeSystem = T := by
        by_cases ha : s.storeTimeSystem = TimeSystem.Any
        · exact ⟨_, by unfold reconcileTimeSystem; rw [if_pos ha], hg⟩
        · have hT : s.storeTimeSystem = T := hs.resolve_left ha
          exact ⟨s, by unfold reconcileTimeSystem; rw [if_neg ha, if_pos (hT.trans hg.symm)], hT⟩
      obtain ⟨s1, hs1, hts⟩ := hstep
      rw [h1, hs1]
      simp only
      obtain ⟨s2, hok, hkeep, _⟩ :=
        ih s1 (Or.inr hts) (fun h hm => hall h (List.mem_cons_of_mem _ hm))
      exact ⟨s2, hok, fun _ => hkeep hts, fun _ => hkeep hts⟩
    · have hr2 : ∀ g, r ≠ FileRecord.header g := fun g e => hr ⟨g, e⟩
      obtain ⟨s1, hs1, hts⟩ := h2 s r hr2
      rw [hs1]
      simp only
      obtain ⟨s2, hok, hkeep, hex⟩ :=
        ih s1 (by rw [hts]; exact hs) (fun h hm => hall h (List.mem_cons_of_mem _ hm))
      refine ⟨s2, hok, fun hT => hkeep (by rw [hts]; exact hT), ?_⟩
      rintro ⟨h, hmem⟩
      rcases List.mem_cons.1 hmem with e | e
      · exact absurd e.symm (hr2 h)
      · exact hex ⟨h, e⟩

theorem loadSP3Store_mismatch (s : SP3EphemerisStore) (file : ParsedFile) (b : Bool)
    (h : FileHeader) (hs : s.storeTimeSystem ≠ TimeSystem.Any)
    (hmem : FileRecord.header h ∈ file.records) (hne : h.timeSystem ≠ s.storeTimeSystem) :
    s.loadSP3Store file b = (s, some ErrorKind.TimeSystemMismatch) := by
  have hm := ingestRecords_mismatch (ingestSP3Record b) (fun _ _ => rfl)
    (ingestSP3Record_sample b) file.records s hs ⟨h, hmem, hne⟩
  simp [loadSP3Store, hm]

theorem loadRinexClockFile_mismatch (s : SP3EphemerisStore) (file : ParsedFile)
    (h : FileHeader) (hs : s.storeTimeSystem ≠ TimeSystem.Any)
    (hmem : FileRecord.header h ∈ file.records) (hne : h.timeSystem ≠ s.storeTimeSystem) :
    s.loadRinexClockFile file = (s, some ErrorKind.TimeSystemMismatch) := by
  have hm := ingestRecords_mismatch ingestClockRecord (fun _ _ => rfl)
    ingestClockRecord_sample file.records s.useRinexClockData
    (by rw [useRinexClockData_storeTimeSystem]; exact hs)
    ⟨h, hmem, by rw [useRinexClockData_storeTimeSystem]; exact hne⟩
  simp [loadRinexClockFile, hm]

theorem loadSP3Store_adopt (s : SP3EphemerisStore) (file : ParsedFile) (b : Bool)
    (T : TimeSystem) (hs : s.storeTimeSystem = TimeSystem.Any)
    (hex : ∃ h, FileRecord.header h ∈ file.records)
    (hall : ∀ h, FileRecord.header h ∈ file.records → h.timeSystem = T) :
    (s.loadSP3Store file b).2 = none ∧ (s.loadSP3Store file b).1.storeTimeSystem = T := by
  obtain ⟨s2, hok, _, hT⟩ := ingestRecords_adopt (ingestSP3Record b) (fun _ _ => rfl)
    (ingestSP3Record_sample b) T file.records s (Or.inl hs) hall
  simp [loadSP3Store, hok, hT hex]

theorem loadRinexClockFile_adopt (s : SP3EphemerisStore) (file : ParsedFile)
    (T : TimeSystem) (hs : s.storeTimeSystem = TimeSystem.Any)
    (hex : ∃ h, FileRecord.header h ∈ file.records)
    (hall : ∀ h, FileRecord.header h ∈ file.records → h.timeSystem = T) :
    (s.loadRinexClockFile file).2 = none ∧
      (s.loadRinexClockFile file).1.storeTimeSystem = T := by
  obtain ⟨s2, hok, _, hT⟩ := ingestRecords_adopt ingestClockRecord (fun _ _ => rfl)
    ingestClockRecord_sample T file.records s.useRinexClockData
    (Or.inl (by rw [useRinexClockData_storeTimeSystem]; exact hs)) hall
  simp [loadRinexClockFile, hok, hT hex]

/-- C17: ingesting a file one of whose headers declares a time system `T1` into a store
whose time system is fixed at `T2 ≠ T1` fails with `TimeSystemMismatch` and leaves the
whole store unchanged (both series, time system, flags, file lists), for a
primary-format file (`loadSP3Store`, `loadSP3File`) as for an override-format file
(`loadRinexClockFile`); ingesting a file whose headers declare `T` into a store whose
time system is `Any` succeeds and the store adopts `T`. -/
theorem ingestion_time_system_consistency (s : SP3EphemerisStore) (file : ParsedFile) :
    (∀ h, s.storeTimeSystem ≠ TimeSystem.Any → FileRecord.header h ∈ file.records →
      h.timeSystem ≠ s.storeTimeSystem →
      (∀ b, s.loadSP3Store file b = (s, some ErrorKind.TimeSystemMismatch)) ∧
      s.loadSP3File file = (s, some ErrorKind.TimeSystemMismatch) ∧
      s.loadRinexClockFile file = (s, some ErrorKind.TimeSystemMismatch)) ∧
    (∀ T, s.storeTimeSystem = TimeSystem.Any →
      (∃ h, FileRecord.header h ∈ file.records) →
      (∀ h, FileRecord.header h ∈ file.records → h.timeSystem = T) →
      (∀ b, (s.loadSP3Store file b).2 = none ∧
        (s.loadSP3Store file b).1.storeTimeSystem = T) ∧
      ((s.loadSP3File file).2 = none ∧ (s.loadSP3File file).1.storeTimeSystem = T) ∧
      ((s.loadRinexClockFile file).2 = none ∧
        (s.loadRinexClockFile file).1.storeTimeSystem = T)) := by
  constructor
  · intro h hs hmem hne
    exact ⟨fun b => loadSP3Store_mismatch s file b h hs hmem hne,
      loadSP3Store_mismatch s file _ h hs hmem hne,
      loadRinexClockFile_mismatch s file h hs hmem hne⟩
  · intro T hs hex hall
    exact ⟨fun b => loadSP3Store_adopt s file b T hs hex hall,
      loadSP3Store_adopt s file _ T hs hex hall,
      loadRinexClockFile_adopt s file T hs hex hall⟩

theorem sp3FileUTC_headers (h : FileHeader) (hm : FileRecord.header h ∈ sp3FileUTC.records) :
    h.timeSystem = TimeSystem.UTC := by
  simp [sp3FileUTC] at hm
  subst hm
  rfl

theorem clkFileUTC_headers (h : FileHeader) (hm : FileRecord.header h ∈ clkFileUTC.records) :
    h.timeSystem = TimeSystem.UTC := by
  simp [clkFileUTC] at hm
  subst hm
  rfl

/-- Witness of C17: the example store is fixed at GPS and rejects the files declared in
UTC, staying as it was; a new store (time system `Any`) ingests them and adopts UTC. -/
theorem ingestion_time_system_consistency_witness :
    (sp3Store.storeTimeSystem = TimeSystem.GPS ∧
      sp3Store.loadSP3File sp3FileUTC = (sp3Store, some ErrorKind.TimeSystemMismatch) ∧
      sp3Store.loadRinexClockFile clkFileUTC
        = (sp3Store, some ErrorKind.TimeSystemMismatch)) ∧
    (new.storeTimeSystem = TimeSystem.Any ∧
      (new.loadSP3File sp3FileUTC).2 = none ∧
      (new.loadSP3File sp3FileUTC).1.storeTimeSystem = TimeSystem.UTC ∧
      (new.loadRinexClockFile clkFileUTC).2 = none ∧
      (new.loadRinexClockFile clkFileUTC).1.storeTimeSystem = TimeSystem.UTC) :=
  ⟨⟨rfl,
    ((ingestion_time_system_consistency sp3Store sp3FileUTC).1
      { timeSystem := TimeSystem.UTC, nominalStep := 900, satCount := 1 }
      (by decide) (by decide) (by decide)).2.1,
    ((ingestion_time_system_consistency sp3Store clkFileUTC).1
      { timeSystem := TimeSystem.UTC, nominalStep := 30, satCount := 1 }
      (by decide) (by decide) (by decide)).2.2⟩,
   ⟨rfl,
    ((ingestion_time_system_consistency new sp3FileUTC).2 TimeSystem.UTC rfl
      ⟨_, List.mem_cons_self _ _⟩ sp3FileUTC_headers).2.1.1,
    ((ingestion_time_system_consistency new sp3FileUTC).2 TimeSystem.UTC rfl
      ⟨_, List.mem_cons_self _ _⟩ sp3FileUTC_headers).2.1.2,
    ((ingestion_time_system_consistency new clkFileUTC).2 TimeSystem.UTC rfl
      ⟨_, List.mem_cons_self _ _⟩ clkFileUTC_headers).2.2.1,
    ((ingestion_time_system_consistency new clkFileUTC).2 TimeSystem.UTC rfl
      ⟨_, List.mem_cons_self _ _⟩ clkFileUTC_headers).2.2.2⟩⟩

/-! ## Ingestion: routing of clock samples -/

theorem getTableInterval_eq {R : Type} (st : TabularSatStore R) (sat : SatID)
    (ttag : CommonTime) (nhalf : Nat) (tbl : DataTable R) (h : st.getTable sat = some tbl) :
    st.getTableInterval sat ttag nhalf =
      if TabularSatStore.inRange tbl ttag = false then Except.error ErrorKind.OutOfRange
      else if st.gapExceeded sat (TabularSatStore.lowerTime tbl ttag)
          (TabularSatStore.upperTime tbl ttag) = true
      then Except.error ErrorKind.DataGap
      else if tbl.length < 2 * nhalf then Except.error ErrorKind.InsufficientSamples
      else if st.intervalExceeded sat
          ((tbl.map (fun p => p.1)).getD (TabularSatStore.windowStart tbl ttag nhalf) 0)
          ((tbl.map (fun p => p.1)).getD
            (TabularSatStore.windowStart tbl ttag nhalf + 2 * nhalf - 1) 0) = true
      then Except.error ErrorKind.IntervalExceeded
      else Except.ok ((tbl.drop (TabularSatStore.windowStart tbl ttag nhalf)).take (2 * nhalf)) := by
  unfold TabularSatStore.getTableInterval
  rw [h]
  simp only [TabularSatStore.inRange, TabularSatStore.lowerTime, TabularSatStore.upperTime,
    TabularSatStore.windowStart, TabularSatStore.upperIndex]
  cases h1 : (tbl.map (fun p => p.1)).any (fun u => decide (ttag ≤ u)) <;>
    cases h2 : (tbl.map (fun p => p.1)).any (fun u => decide (u < ttag)) <;> simp

/-! ## Gap policing -/

theorem getTableInterval_dataGap_iff {R : Type} (st : TabularSatStore R) (sat : SatID)
    (ttag : CommonTime) (nhalf : Nat) (tbl : DataTable R) (h : st.getTable sat = some tbl) :
    st.getTableInterval sat ttag nhalf = Except.error ErrorKind.DataGap ↔
      (TabularSatStore.inRange tbl ttag = true ∧
        st.gapExceeded sat (TabularSatStore.lowerTime tbl ttag)
          (TabularSatStore.upperTime tbl ttag) = true) := by
  rw [getTableInterval_eq st sat ttag nhalf tbl h]
  split_ifs <;> simp_all

theorem getPosition_error_iff (s : SP3EphemerisStore) (sat : SatID) (ttag : CommonTime)
    (e : ErrorKind) :
    s.getPosition sat ttag = Except.error e ↔
      s.posStore.getTableInterval sat ttag (s.posStore.interpOrder / 2) = Except.error e := by
  unfold getPosition PositionSatStore.getValue
  cases hi : s.posStore.getTableInterval sat ttag (s.posStore.interpOrder / 2) with
  | error e2 => simp
  | ok w => simp

theorem clock_getValue_dataGap_iff (c : ClockSatStore) (sat : SatID) (ttag : CommonTime) :
    c.getValue sat ttag = Except.error ErrorKind.DataGap ↔
      c.toTabularSatStore.getTableInterval sat ttag c.nhalf = Except.error ErrorKind.DataGap := by
  unfold ClockSatStore.getValue ClockSatStore.nhalf
  cases ht : c.interpType with
  | Lagrange =>
    simp only
    cases hi : c.toTabularSatStore.getTableInterval sat ttag (c.interpOrder / 2) with
    | error e2 => simp
    | ok w => simp
  | Linear =>
    simp only
    cases hi : c.toTabularSatStore.getTableInterval sat ttag 1 with
    | error e2 => simp
    | ok w =>
      split <;> simp_all

theorem gapExceeded_some {R : Type} (st : TabularSatStore R) (sat : SatID) (g : ℚ)
    (lower upper : CommonTime) (h : st.gapInterval = some g) :
    st.gapExceeded sat lower upper = true ↔ upper - lower > g * st.nomTimeStep sat := by
  unfold TabularSatStore.gapExceeded
  rw [h]
  simp

theorem gapExceeded_none {R : Type} (st : TabularSatStore R) (sat : SatID)
    (lower upper : CommonTime) (h : st.gapInterval = none) :
    st.gapExceeded sat lower upper = false := by
  unfold TabularSatStore.gapExceeded
  rw [h]

/-- C19: with gap checking enabled by `setPosGapInterval(g)`, a position query at `t`
for a satellite of the position series fails with `DataGap` if and only if `t` has
bracketing samples and their distance is strictly greater than
`g × nominalStep(sat)`; the same holds for the clock query after
`setClockGapInterval(g)`; with the check disabled the query never fails with
`DataGap`. -/
theorem gap_policing_strict (s : SP3EphemerisStore) (sat : SatID) (t : CommonTime) (g : ℚ) :
    (s.setPosGapInterval g).isPosDataGapCheck = true ∧
    (∀ tbl, s.posStore.getTable sat = some tbl →
      ((s.setPosGapInterval g).getPosition sat t = Except.error ErrorKind.DataGap ↔
        (TabularSatStore.inRange tbl t = true ∧
          TabularSatStore.upperTime tbl t - TabularSatStore.lowerTime tbl t
            > g * s.getPositionTimeStep sat))) ∧
    (∀ tbl, s.clkStore.getTable sat = some tbl →
      ((s.setClockGapInterval g).clkStore.getValue sat t = Except.error ErrorKind.DataGap ↔
        (TabularSatStore.inRange tbl t = true ∧
          TabularSatStore.upperTime tbl t - TabularSatStore.lowerTime tbl t
            > g * s.clkStore.nomTimeStep sat))) ∧
    (∀ tbl, s.posStore.getTable sat = some tbl →
      s.disablePosDataGapCheck.getPosition sat t ≠ Except.error ErrorKind.DataGap) ∧
    (∀ tbl, s.posStore.getTable sat = some tbl → TabularSatStore.inRange tbl t = true →
      s.getPositionTimeStep sat = 900 →
      TabularSatStore.upperTime tbl t - TabularSatStore.lowerTime tbl t = 1800 →
      (s.setPosGapInterval 2).getPosition sat t ≠ Except.error ErrorKind.DataGap ∧
      (s.setPosGapInterval (3 / 2)).getPosition sat t = Except.error ErrorKind.DataGap) := by
  have hpos : ∀ (g2 : ℚ) tbl, s.posStore.getTable sat = some tbl →
      ((s.setPosGapInterval g2).getPosition sat t = Except.error ErrorKind.DataGap ↔
        (TabularSatStore.inRange tbl t = true ∧
          TabularSatStore.upperTime tbl t - TabularSatStore.lowerTime tbl t
            > g2 * s.getPositionTimeStep sat)) := by
    intro g2 tbl h
    rw [getPosition_error_iff]
    have h2 : (s.setPosGapInterval g2).posStore.getTable sat = some tbl := h
    rw [getTableInterval_dataGap_iff _ sat t _ tbl h2,
      gapExceeded_some _ sat g2 _ _
        (rfl : (s.setPosGapInterval g2).posStore.gapInterval = some g2)]
    rfl
  refine ⟨rfl, hpos g, fun tbl h => ?_, fun tbl h hd => ?_, fun tbl h hr hstep hdist => ?_⟩
  rotate_left 2
  · constructor
    · intro hd
      have := ((hpos 2 tbl h).1 hd).2
      rw [hstep, hdist] at this
      norm_num at this
    · refine (hpos (3 / 2) tbl h).2 ⟨hr, ?_⟩
      rw [hstep, hdist]
      norm_num
  · rw [clock_getValue_dataGap_iff]
    have h2 : (s.setClockGapInterval g).clkStore.toTabularSatStore.getTable sat = some tbl := h
    rw [getTableInterval_dataGap_iff _ sat t _ tbl h2,
      gapExceeded_some _ sat g _ _
        (rfl : (s.setClockGapInterval g).clkStore.toTabularSatStore.gapInterval = some g)]
    rfl
  · rw [getPosition_error_iff] at hd
    have h2 : s.disablePosDataGapCheck.posStore.getTable sat = some tbl := h
    rw [getTableInterval_dataGap_iff _ sat t _ tbl h2,
      gapExceeded_none _ sat _ _ (rfl : s.disablePosDataGapCheck.posStore.gapInterval = none)] at hd
    simp at hd

/-- Witness of C19 (scenario S4): positions every 900 s with the sample at 5400 s
dropped, order 10; the query at 4950 s is bracketed by the samples at 4500 s and
6300 s, 1800 s apart, and the nominal step is 900 s; at threshold 2 the query succeeds
(1800 is not greater than 2 × 900), at threshold 3/2 it fails with `DataGap`. -/
theorem gap_policing_strict_witness :
    gapStore.getPositionTimeStep satG01 = 900 ∧
    (∃ tbl, gapStore.posStore.getTable satG01 = some tbl ∧
      TabularSatStore.lowerTime tbl 4950 = 4500 ∧ TabularSatStore.upperTime tbl 4950 = 6300 ∧
      TabularSatStore.inRange tbl 4950 = true ∧
      ((gapStore.setPosGapInterval (3 / 2)).getPosition satG01 4950
          = Except.error ErrorKind.DataGap ↔
        (TabularSatStore.inRange tbl 4950 = true ∧
          TabularSatStore.upperTime tbl 4950 - TabularSatStore.lowerTime tbl 4950
            > 3 / 2 * gapStore.getPositionTimeStep satG01))) ∧
    (gapStore.setPosGapInterval 2).getPosition satG01 4950 = Except.ok ⟨11 / 2, 121 / 4, 1⟩ ∧
    (gapStore.setPosGapInterval (3 / 2)).getPosition satG01 4950
      = Except.error ErrorKind.DataGap :=
  ⟨by decide!,
   ⟨_, rfl, by decide!, by decide!, by decide!,
    (gap_policing_strict gapStore satG01 4950 (3 / 2)).2.1 _ rfl⟩,
   by decide!, by decide!⟩

/-! ## Queries inside the time limits -/

theorem foldl_min_mem (l : List CommonTime) (a : CommonTime) : l.foldl min a ∈ a :: l := by
  induction l generalizing a with
  | nil => simp
  | cons b bs ih =>
    simp only [List.foldl]
    rcases List.mem_cons.1 (ih (min a b)) with e | e
    · rw [e]
      rcases min_choice a b with h | h
      · rw [h]; exact List.mem_cons_self _ _
      · rw [h]; exact List.mem_cons_of_mem _ (List.mem_cons_self _ _)
    · exact List.mem_cons_of_mem _ (List.mem_cons_of_mem _ e)

theorem foldl_max_mem (l : List CommonTime) (a : CommonTime) : l.foldl max a ∈ a :: l := by
  induction l generalizing a with
  | nil => simp
  | cons b bs ih =>
    simp only [List.foldl]
    rcases List.mem_cons.1 (ih (max a b)) with e | e
    · rw [e]
      rcases max_choice a b with h | h
      · rw [h]; exact List.mem_cons_self _ _
      · rw [h]; exact List.mem_cons_of_mem _ (List.mem_cons_self _ _)
    · exact List.mem_cons_of_mem _ (List.mem_cons_of_mem _ e)

theorem minTime_mem {l : List CommonTime} {m : CommonTime}
    (h : TabularSatStore.minTime l = some m) : m ∈ l := by
  cases l with
  | nil => simp [TabularSatStore.minTime] at h
  | cons a as =>
    simp only [TabularSatStore.minTime, Option.some.injEq] at h
    rw [← h]
    exact foldl_min_mem as a

theorem maxTime_mem {l : List CommonTime} {m : CommonTime}
    (h : TabularSatStore.maxTime l = some m) : m ∈ l := by
  cases l with
  | nil => simp [TabularSatStore.maxTime] at h
  | cons a as =>
    simp only [TabularSatStore.maxTime, Option.some.injEq] at h
    rw [← h]
    exact foldl_max_mem as a

theorem satTimes_eq_getTable {R : Type} (st : TabularSatStore R) (sat : SatID) :
    st.satTimes sat = (st.getTable sat).map (fun tbl => tbl.map (fun p => p.1)) := by
  unfold TabularSatStore.satTimes TabularSatStore.getTable
  rw [Option.map_map]
  rfl

theorem getInitialTimeSat_some {R : Type} (st : TabularSatStore R) (sat : SatID)
    (m : CommonTime) (h : st.getInitialTimeSat sat = some m) :
    ∃ tbl, st.getTable sat = some tbl ∧ m ∈ tbl.map (fun p => p.1) := by
  unfold TabularSatStore.getInitialTimeSat at h
  rw [satTimes_eq_getTable] at h
  cases hg : st.getTable sat with
  | none => rw [hg] at h; simp at h
  | some tbl =>
    rw [hg] at h
    simp only [Option.map_some', Option.some_bind] at h
    exact ⟨tbl, rfl, minTime_mem h⟩

theorem getFinalTimeSat_some {R : Type} (st : TabularSatStore R) (sat : SatID)
    (m : CommonTime) (h : st.getFinalTimeSat sat = some m) :
    ∃ tbl, st.getTable sat = some tbl ∧ m ∈ tbl.map (fun p => p.1) := by
  unfold TabularSatStore.getFinalTimeSat at h
  rw [satTimes_eq_getTable] at h
  cases hg : st.getTable sat with
  | none => rw [hg] at h; simp at h
  | some tbl =>
    rw [hg] at h
    simp only [Option.map_some', Option.some_bind] at h
    exact ⟨tbl, rfl, maxTime_mem h⟩

theorem isPresent_of_getTable {R : Type} (st : TabularSatStore R) (sat : SatID)
    (tbl : DataTable R) (h : st.getTable sat = some tbl) : st.isPresent sat = true := by
  unfold TabularSatStore.getTable at h
  cases hf : st.tables.find? (fun e => e.1 == sat) with
  | none => rw [hf] at h; simp at h
  | some e =>
    unfold TabularSatStore.isPresent
    rw [List.any_eq_true]
    have h1 := List.find?_some hf
    exact ⟨e, List.mem_of_find?_eq_some hf, h1⟩

theorem inRange_of_bounds {R : Type} (tbl : DataTable R) (t a b : CommonTime)
    (ha : a ∈ tbl.map (fun p => p.1)) (hb : b ∈ tbl.map (fun p => p.1))
    (hat : a < t) (htb : t ≤ b) : TabularSatStore.inRange tbl t = true := by
  unfold TabularSatStore.inRange
  rw [Bool.and_eq_true, List.any_eq_true, List.any_eq_true]
  exact ⟨⟨b, hb, by simpa using htb⟩, ⟨a, ha, by simpa using hat⟩⟩

theorem getTableInterval_ok {R : Type} (st : TabularSatStore R) (sat : SatID)
    (ttag : CommonTime) (nhalf : Nat) (tbl : DataTable R) (h : st.getTable sat = some tbl)
    (hr : TabularSatStore.inRange tbl ttag = true)
    (hs : st.selectionRejects sat ttag nhalf = false) :
    st.getTableInterval sat ttag nhalf =
        Except.ok ((tbl.drop (TabularSatStore.windowStart tbl ttag nhalf)).take (2 * nhalf)) ∧
      2 * nhalf ≤ tbl.length := by
  unfold TabularSatStore.selectionRejects at hs
  rw [h] at hs
  simp only [Bool.or_eq_false_iff, decide_eq_false_iff_not, not_lt] at hs
  rw [getTableInterval_eq st sat ttag nhalf tbl h]
  obtain ⟨⟨h1, h2⟩, h3⟩ := hs
  refine ⟨?_, h2⟩
  rw [if_neg (by rw [hr]; simp), if_neg (by rw [h1]; simp), if_neg (by omega),
    if_neg (by rw [h3]; simp)]

theorem window_length_two {R : Type} (tbl : DataTable R) (ttag : CommonTime)
    (h : 2 * 1 ≤ tbl.length) :
    ∃ a b, (tbl.drop (TabularSatStore.windowStart tbl ttag 1)).take (2 * 1) = [a, b] := by
  have hs : TabularSatStore.windowStart tbl ttag 1 + 2 ≤ tbl.length := by
    unfold TabularSatStore.windowStart
    split_ifs <;> omega
  have hl : ((tbl.drop (TabularSatStore.windowStart tbl ttag 1)).take (2 * 1)).length = 2 := by
    rw [List.length_take, List.length_drop]
    omega
  generalize (tbl.drop (TabularSatStore.windowStart tbl ttag 1)).take (2 * 1) = w at hl
  match w, hl with
  | [a, b], _ => exact ⟨a, b, rfl⟩

theorem position_getValue_ok (st : PositionSatStore) (sat : SatID) (ttag : CommonTime)
    (tbl : DataTable PositionRecord) (h : st.getTable sat = some tbl)
    (hr : TabularSatStore.inRange tbl ttag = true)
    (hs : st.selectionRejects sat ttag (st.interpOrder / 2) = false) :
    ∃ v, st.getValue sat ttag = Except.ok v := by
  unfold PositionSatStore.getValue
  rw [(getTableInterval_ok st sat ttag _ tbl h hr hs).1]
  exact ⟨_, rfl⟩

theorem clock_getValue_ok (c : ClockSatStore) (sat : SatID) (ttag : CommonTime)
    (tbl : DataTable ClockRecord) (h : c.getTable sat = some tbl)
    (hr : TabularSatStore.inRange tbl ttag = true)
    (hs : c.selectionRejects sat ttag c.nhalf = false) :
    ∃ v, c.getValue sat ttag = Except.ok v := by
  unfold ClockSatStore.getValue
  unfold ClockSatStore.nhalf at hs
  cases ht : c.interpType with
  | Lagrange =>
    rw [ht] at hs
    simp only at hs ⊢
    rw [(getTableInterval_ok c.toTabularSatStore sat ttag _ tbl h hr hs).1]
    exact ⟨_, rfl⟩
  | Linear =>
    rw [ht] at hs
    simp only at hs ⊢
    obtain ⟨hw, hlen⟩ := getTableInterval_ok c.toTabularSatStore sat ttag 1 tbl h hr hs
    obtain ⟨a, b, hab⟩ := window_length_two tbl ttag hlen
    rw [hw, hab]
    obtain ⟨t0, r0⟩ := a
    obtain ⟨t1, r1⟩ := b
    exact ⟨_, rfl⟩

theorem selectionRejects_disabled {R : Type} (st : TabularSatStore R) (sat : SatID)
    (ttag : CommonTime) (nhalf : Nat) (hg : st.gapInterval = none)
    (hm : st.maxInterval = none) (hn : 2 * nhalf ≤ st.ndataSat sat) :
    st.selectionRejects sat ttag nhalf = false := by
  unfold TabularSatStore.selectionRejects
  cases hgt : st.getTable sat with
  | none => rfl
  | some tbl =>
    have hlen : st.ndataSat sat = tbl.length := by
      unfold TabularSatStore.ndataSat
      unfold TabularSatStore.getTable at hgt
      cases hf : st.tables.find? (fun e => e.1 == sat) with
      | none => rw [hf] at hgt; simp at hgt
      | some e =>
        rw [hf] at hgt
        simp only [Option.map_some', Option.some.injEq] at hgt
        rw [← hgt]
    simp only [TabularSatStore.gapExceeded, TabularSatStore.intervalExceeded, hg, hm,
      Bool.false_or, Bool.or_false, decide_eq_false_iff_not, not_lt]
    omega

/-- C14, amended: for a satellite with data in both series and a time `t` with
`initial(s) < t ≤ final(s)` in both series, `getXvt(s, t)` succeeds (with health
`Unused`) whenever, in each series, the sample selection does not reject the query:
no gap beyond the gap threshold, at least as many samples as the window needs (the
interpolation order; 2 for linear clock interpolation) and no window span beyond the
interval threshold. This is the case when both checks are disabled in both series and
each series holds that many samples of the satellite. -/
theorem getXvt_succeeds_inside_limits (s : SP3EphemerisStore) (sat : SatID)
    (t ti tf : CommonTime)
    (hi : s.getInitialTimeSat sat = some ti) (hf : s.getFinalTimeSat sat = some tf)
    (h1 : ti < t) (h2 : t ≤ tf) :
    (s.posStore.selectionRejects sat t (s.posStore.interpOrder / 2) = false →
      s.clkStore.selectionRejects sat t s.clkStore.nhalf = false →
      s.isPresent sat = true ∧
      ∃ xvt, s.getXvt sat t = Except.ok xvt ∧ xvt.health = HealthStatus.Unused) ∧
    (s.posStore.gapInterval = none → s.posStore.maxInterval = none →
      s.clkStore.gapInterval = none → s.clkStore.maxInterval = none →
      2 * (s.posStore.interpOrder / 2) ≤ s.ndataPositionSat sat →
      2 * s.clkStore.nhalf ≤ s.ndataClockSat sat →
      ∃ xvt, s.getXvt sat t = Except.ok xvt ∧ xvt.health = HealthStatus.Unused) := by
  have main : s.posStore.selectionRejects sat t (s.posStore.interpOrder / 2) = false →
      s.clkStore.selectionRejects sat t s.clkStore.nhalf = false →
      s.isPresent sat = true ∧
      ∃ xvt, s.getXvt sat t = Except.ok xvt ∧ xvt.health = HealthStatus.Unused := by
    intro hp hc
    unfold getInitialTimeSat at hi
    unfold getFinalTimeSat at hf
    cases hpi : s.posStore.getInitialTimeSat sat with
    | none => rw [hpi] at hi; simp at hi
    | some pi =>
    cases hci : s.clkStore.getInitialTimeSat sat with
    | none => rw [hpi, hci] at hi; simp at hi
    | some ci =>
    cases hpf : s.posStore.getFinalTimeSat sat with
    | none => rw [hpf] at hf; simp at hf
    | some pf =>
    cases hcf : s.clkStore.getFinalTimeSat sat with
    | none => rw [hpf, hcf] at hf; simp at hf
    | some cf =>
    rw [hpi, hci] at hi
    rw [hpf, hcf] at hf
    simp only [Option.some.injEq] at hi hf
    rw [later_eq_max] at hi
    rw [earlier_eq_min] at hf
    have hlt : pi < t ∧ ci < t := max_lt_iff.1 (by rw [hi]; exact h1)
    have hle : t ≤ pf ∧ t ≤ cf := le_min_iff.1 (by rw [hf]; exact h2)
    obtain ⟨ptbl, hpt, hpim⟩ := getInitialTimeSat_some s.posStore sat pi hpi
    obtain ⟨ptbl2, hpt2, hpfm⟩ := getFinalTimeSat_some s.posStore sat pf hpf
    obtain ⟨ctbl, hct, hcim⟩ := getInitialTimeSat_some s.clkStore.toTabularSatStore sat ci hci
    obtain ⟨ctbl2, hct2, hcfm⟩ := getFinalTimeSat_some s.clkStore.toTabularSatStore sat cf hcf
    rw [hpt] at hpt2
    rw [hct] at hct2
    cases hpt2
    cases hct2
    have hrp := inRange_of_bounds ptbl t pi pf hpim hpfm hlt.1 hle.1
    have hrc := inRange_of_bounds ctbl t ci cf hcim hcfm hlt.2 hle.2
    have hpres : s.isPresent sat = true := by
      unfold isPresent ClockSatStore.isPresent
      rw [isPresent_of_getTable s.posStore sat ptbl hpt,
        isPresent_of_getTable s.clkStore.toTabularSatStore sat ctbl hct]
      rfl
    obtain ⟨pv, hpv⟩ := position_getValue_ok s.posStore sat t ptbl hpt hrp hp
    obtain ⟨cv, hcv⟩ := clock_getValue_ok s.clkStore sat t ctbl hct hrc hc
    refine ⟨hpres, ?_⟩
    have hx : ∃ xvt, s.getXvt sat t = Except.ok xvt := by
      unfold getXvt
      rw [hpres, hpv, hcv]
      exact ⟨_, rfl⟩
    obtain ⟨xvt, hxvt⟩ := hx
    exact ⟨xvt, hxvt, getXvt_health s sat t xvt hxvt⟩
  refine ⟨main, fun g1 m1 g2 m2 n1 n2 => ?_⟩
  exact (main (selectionRejects_disabled s.posStore sat t _ g1 m1 n1)
    (selectionRejects_disabled s.clkStore.toTabularSatStore sat t _ g2 m2 n2)).2

/-- C14, as stated, fails: `GPS:1` is present in both series of the example store, with
data from 300 s to 1500 s in both; `getXvt` at the initial time 300 s fails with
`OutOfRange` (the clock series has no sample before it); at 900 s it fails with
`InsufficientSamples` once the position order is 10 (three position samples), and with
`DataGap` once the position gap interval is 1/2 (the bracketing samples are one nominal
step apart). -/
theorem getXvt_inside_limits_counterexample :
    sp3Store.isPresent satG01 = true ∧
    sp3Store.getInitialTimeSat satG01 = some 300 ∧
    sp3Store.getFinalTimeSat satG01 = some 1500 ∧
    sp3Store.getXvt satG01 300 = Except.error ErrorKind.OutOfRange ∧
    (sp3Store.setPositionInterpOrder 10).getInitialTimeSat satG01 = some 300 ∧
    (sp3Store.setPositionInterpOrder 10).getFinalTimeSat satG01 = some 1500 ∧
    (sp3Store.setPositionInterpOrder 10).getXvt satG01 900
      = Except.error ErrorKind.InsufficientSamples ∧
    (sp3Store.setPosGapInterval (1 / 2)).getInitialTimeSat satG01 = some 300 ∧
    (sp3Store.setPosGapInterval (1 / 2)).getFinalTimeSat satG01 = some 1500 ∧
    (sp3Store.setPosGapInterval (1 / 2)).getXvt satG01 900
      = Except.error ErrorKind.DataGap ∧
    ¬ (∀ (s : SP3EphemerisStore) (sat : SatID) (t ti tf : CommonTime),
        s.isPresent sat = true → s.getInitialTimeSat sat = some ti →
        s.getFinalTimeSat sat = some tf → ti ≤ t → t ≤ tf →
        ∃ xvt, s.getXvt sat t = Except.ok xvt) := by
  have h300 : sp3Store.getXvt satG01 300 = Except.error ErrorKind.OutOfRange := by decide!
  refine ⟨by decide, by decide, by decide, h300, by decide, by decide, by decide!,
    by decide, by decide, by decide!, fun h => ?_⟩
  obtain ⟨xvt, hx⟩ := h sp3Store satG01 300 300 1500 (by decide) (by decide) (by decide)
    (le_refl _) (by norm_num)
  rw [h300] at hx
  cases hx

/-- Witness of the amended C14: in the example store (order 2, checks disabled) the
query for `GPS:1` at 450 s, inside the limits 300 s and 1500 s, succeeds. -/
theorem getXvt_succeeds_inside_limits_witness :
    sp3Store.getInitialTimeSat satG01 = some 300 ∧
    sp3Store.getFinalTimeSat satG01 = some 1500 ∧
    (300 : ℚ) < 450 ∧ (450 : ℚ) ≤ 1500 ∧
    sp3Store.posStore.selectionRejects satG01 450 (sp3Store.posStore.interpOrder / 2) = false ∧
    sp3Store.clkStore.selectionRejects satG01 450 sp3Store.clkStore.nhalf = false ∧
    (∃ xvt, sp3Store.getXvt satG01 450 = Except.ok xvt ∧ xvt.health = HealthStatus.Unused) ∧
    sp3Store.getXvt satG01 450 =
      Except.ok ⟨⟨3 / 2, 5 / 2, 7 / 2⟩, ⟨1 / 900, 1 / 900, 1 / 900⟩, 41 / 8, 1 / 1200,
        HealthStatus.Unused⟩ :=
  ⟨by decide, by decide, by norm_num, by norm_num, by decide, by decide,
   ((getXvt_succeeds_inside_limits sp3Store satG01 450 300 1500 (by decide) (by decide)
      (by norm_num) (by norm_num)).1 (by decide) (by decide)).2,
   by decide!⟩

/-! ## Interpolation at a stored sample -/

/-- C22: `useRinexClockData` and `useSP3ClockData` touch only the clock-source flag and
the clock series: the position series (its samples, satellite list, `ndata`,
`hasVelocity`), `storeTimeSystem`, the four rejection flags and both file lists
(hence `nSP3files`) are the same after the call as before. -/
theorem source_switch_frame (s : SP3EphemerisStore) :
    (s.useRinexClockData.posStore = s.posStore ∧
      s.useRinexClockData.getPositionSatList = s.getPositionSatList ∧
      s.useRinexClockData.ndataPosition = s.ndataPosition ∧
      s.useRinexClockData.hasVelocity = s.hasVelocity ∧
      s.useRinexClockData.storeTimeSystem = s.storeTimeSystem ∧
      s.useRinexClockData.rejectBadPosFlag = s.rejectBadPosFlag ∧
      s.useRinexClockData.rejectBadClockFlag = s.rejectBadClockFlag ∧
      s.useRinexClockData.rejectPredPosFlag = s.rejectPredPosFlag ∧
      s.useRinexClockData.rejectPredClockFlag = s.rejectPredClockFlag ∧
      s.useRinexClockData.SP3Files = s.SP3Files ∧
      s.useRinexClockData.clkFiles = s.clkFiles ∧
      s.useRinexClockData.nSP3files = s.nSP3files) ∧
    (s.useSP3ClockData.posStore = s.posStore ∧
      s.useSP3ClockData.getPositionSatList = s.getPositionSatList ∧
      s.useSP3ClockData.ndataPosition = s.ndataPosition ∧
      s.useSP3ClockData.hasVelocity = s.hasVelocity ∧
      s.useSP3ClockData.storeTimeSystem = s.storeTimeSystem ∧
      s.useSP3ClockData.rejectBadPosFlag = s.rejectBadPosFlag ∧
      s.useSP3ClockData.rejectBadClockFlag = s.rejectBadClockFlag ∧
      s.useSP3ClockData.rejectPredPosFlag = s.rejectPredPosFlag ∧
      s.useSP3ClockData.rejectPredClockFlag = s.rejectPredClockFlag ∧
      s.useSP3ClockData.SP3Files = s.SP3Files ∧
      s.useSP3ClockData.clkFiles = s.clkFiles ∧
      s.useSP3ClockData.nSP3files = s.nSP3files) := by
  have h1 : s.useRinexClockData.posStore = s.posStore ∧
      s.useRinexClockData.storeTimeSystem = s.storeTimeSystem ∧
      s.useRinexClockData.rejectBadPosFlag = s.rejectBadPosFlag ∧
      s.useRinexClockData.rejectBadClockFlag = s.rejectBadClockFlag ∧
      s.useRinexClockData.rejectPredPosFlag = s.rejectPredPosFlag ∧
      s.useRinexClockData.rejectPredClockFlag = s.rejectPredClockFlag ∧
      s.useRinexClockData.SP3Files = s.SP3Files ∧
      s.useRinexClockData.clkFiles = s.clkFiles := by
    unfold useRinexClockData
    split
    · exact ⟨rfl, rfl, rfl, rfl, rfl, rfl, rfl, rfl⟩
    · exact ⟨rfl, rfl, rfl, rfl, rfl, rfl, rfl, rfl⟩
  have h2 : s.useSP3ClockData.posStore = s.posStore ∧
      s.useSP3ClockData.storeTimeSystem = s.storeTimeSystem ∧
      s.useSP3ClockData.rejectBadPosFlag = s.rejectBadPosFlag ∧
      s.useSP3ClockData.rejectBadClockFlag = s.rejectBadClockFlag ∧
      s.useSP3ClockData.rejectPredPosFlag = s.rejectPredPosFlag ∧
      s.useSP3ClockData.rejectPredClockFlag = s.rejectPredClockFlag ∧
      s.useSP3ClockData.SP3Files = s.SP3Files ∧
      s.useSP3ClockData.clkFiles = s.clkFiles := by
    unfold useSP3ClockData
    split
    · exact ⟨rfl, rfl, rfl, rfl, rfl, rfl, rfl, rfl⟩
    · exact ⟨rfl, rfl, rfl, rfl, rfl, rfl, rfl, rfl⟩
  obtain ⟨a1, a2, a3, a4, a5, a6, a7, a8⟩ := h1
  obtain ⟨b1, b2, b3, b4, b5, b6, b7, b8⟩ := h2
  refine ⟨⟨a1, ?_, ?_, ?_, a2, a3, a4, a5, a6, a7, a8, ?_⟩,
    ⟨b1, ?_, ?_, ?_, b2, b3, b4, b5, b6, b7, b8, ?_⟩⟩
  · simp only [getPositionSatList, a1]
  · simp only [ndataPosition, a1]
  · simp only [hasVelocity, a1]
  · simp only [nSP3files, a7]
  · simp only [getPositionSatList, b1]
  · simp only [ndataPosition, b1]
  · simp only [hasVelocity, b1]
  · simp only [nSP3files, b7]

/-- C23: `clear()` does not reset the time system or the file lists: `getTimeSystem()`,
`nfiles()`, `nSP3files()` and `nClockfiles()` return the same values after `clear()`
as before, so a store whose time system is fixed (not `Any`), as after an ingestion,
is still fixed to that system after being cleared. -/
theorem clear_keeps_time_system_and_files (s : SP3EphemerisStore) :
    s.clear.getTimeSystem = s.getTimeSystem ∧
    s.clear.nfiles = s.nfiles ∧ s.clear.nSP3files = s.nSP3files ∧
    s.clear.nClockfiles = s.nClockfiles ∧
    s.clear.SP3Files = s.SP3Files ∧ s.clear.clkFiles = s.clkFiles ∧
    (s.getTimeSystem ≠ TimeSystem.Any → s.clear.getTimeSystem ≠ TimeSystem.Any) ∧
    (∀ file, ((s.loadSP3File file).1.clear).getTimeSystem
        = (s.loadSP3File file).1.getTimeSystem) ∧
    (∀ file, ((s.loadRinexClockFile file).1.clear).getTimeSystem
        = (s.loadRinexClockFile file).1.getTimeSystem) :=
  ⟨rfl, rfl, rfl, rfl, rfl, rfl, fun h => h, fun _ => rfl, fun _ => rfl⟩

/-- Witness of C23: a new store that ingested a file declared in UTC is fixed at UTC
and has one file; after `clear()` it holds no data, is still fixed at UTC and still
counts one file. -/
theorem clear_keeps_time_system_and_files_witness :
    (new.loadSP3File sp3FileUTC).1.getTimeSystem = TimeSystem.UTC ∧
    (new.loadSP3File sp3FileUTC).1.getTimeSystem ≠ TimeSystem.Any ∧
    (new.loadSP3File sp3FileUTC).1.nfiles = 1 ∧
    (new.loadSP3File sp3FileUTC).1.ndataPosition = 1 ∧
    ((new.loadSP3File sp3FileUTC).1.clear).ndataPosition = 0 ∧
    ((new.loadSP3File sp3FileUTC).1.clear).nfiles = 1 ∧
    ((new.loadSP3File sp3FileUTC).1.clear).getTimeSystem = TimeSystem.UTC ∧
    ((new.loadSP3File sp3FileUTC).1.clear).getTimeSystem ≠ TimeSystem.Any :=
  ⟨by decide, by decide, by decide, by decide, by decide, by decide, by decide,
   (clear_keeps_time_system_and_files (new.loadSP3File sp3FileUTC).1).2.2.2.2.2.2.1
     (by decide)⟩

/-- C24: when the clock store is fed from SP3 (`useSP3clock` true)
`nfiles() = nSP3files() = nClockfiles()`, whatever RINEX clock files were recorded
earlier; when it is fed from RINEX clock files
`nfiles() = nSP3files() + nClockfiles()`; in both cases `nfiles() ≥ nSP3files()`. -/
theorem file_counts_by_clock_source (s : SP3EphemerisStore) :
    (s.useSP3clock = true →
      s.nfiles = s.nSP3files ∧ s.nSP3files = s.nClockfiles ∧
      s.nfiles = s.SP3Files.size) ∧
    (s.useSP3clock = false →
      s.nfiles = s.nSP3files + s.nClockfiles ∧ s.nClockfiles = s.clkFiles.size) ∧
    s.nSP3files ≤ s.nfiles := by
  refine ⟨fun h => ?_, fun h => ?_, ?_⟩
  · simp [nfiles, nSP3files, nClockfiles, h]
  · simp [nfiles, nSP3files, nClockfiles, h]
  · simp [nfiles, nSP3files]

/-- Witness of C24: the store on the override source counts one SP3 file and one clock
file, two files in all; switched back to SP3 it still records the clock file but
counts one file, one SP3 file and one clock file. -/
theorem file_counts_by_clock_source_witness :
    (rinexStore.useSP3clock = false ∧ rinexStore.nSP3files = 1 ∧
      rinexStore.nClockfiles = 1 ∧ rinexStore.nfiles = 2 ∧
      rinexStore.nfiles = rinexStore.nSP3files + rinexStore.nClockfiles) ∧
    (rinexStore.useSP3ClockData.useSP3clock = true ∧
      rinexStore.useSP3ClockData.clkFiles.size = 1 ∧
      rinexStore.useSP3ClockData.nfiles = 1 ∧
      rinexStore.useSP3ClockData.nfiles = rinexStore.useSP3ClockData.nSP3files ∧
      rinexStore.useSP3ClockData.nSP3files = rinexStore.useSP3ClockData.nClockfiles) :=
  ⟨⟨rfl, by decide, by decide, by decide,
    ((file_counts_by_clock_source rinexStore).2.1 rfl).1⟩,
   ⟨by decide, by decide, by decide,
    ((file_counts_by_clock_source rinexStore.useSP3ClockData).1 (by decide)).1,
    ((file_counts_by_clock_source rinexStore.useSP3ClockData).1 (by decide)).2.1⟩⟩

/-! ## The velocity flag -/

theorem applyIngestion_hasVelocity (s : SP3EphemerisStore) (op : PositionIngestion) :
    (s.applyIngestion op).hasVelocity = (s.hasVelocity && !op.lacksVelocity) := by
  cases op with
  | record sat ttag data =>
    simp only [applyIngestion, hasVelocity, addPositionRecord,
      PositionSatStore.addPositionRecord, PositionIngestion.lacksVelocity]
    cases data.Vel <;> simp
  | position sat ttag Pos sig =>
    simp [applyIngestion, hasVelocity, addPositionData, PositionSatStore.addPositionData,
      PositionSatStore.addPositionRecord, PositionIngestion.lacksVelocity]
  | velocity sat ttag Vel sig =>
    simp [applyIngestion, hasVelocity, addVelocityData, PositionSatStore.addVelocityData,
      TabularSatStore.addRecord, PositionIngestion.lacksVelocity]

theorem ingestPositions_hasVelocity (s : SP3EphemerisStore) (ops : List PositionIngestion) :
    (s.ingestPositions ops).hasVelocity =
      (s.hasVelocity && ops.all (fun op => !op.lacksVelocity)) := by
  unfold ingestPositions
  induction ops generalizing s with
  | nil => simp
  | cons op ops ih =>
    simp only [List.foldl, List.all_cons]
    rw [ih, applyIngestion_hasVelocity, Bool.and_assoc]

theorem ingestSP3Records_hasVelocity (b : Bool) (rs : List FileRecord)
    (s s2 : SP3EphemerisStore)
    (h : ingestRecords (ingestSP3Record b) s rs = Except.ok s2) :
    s2.hasVelocity = (s.hasVelocity && s.acceptedHaveVelocity rs) := by
  induction rs generalizing s with
  | nil =>
    simp only [ingestRecords, Except.ok.injEq] at h
    subst h
    simp [acceptedHaveVelocity]
  | cons a as ih =>
    unfold ingestRecords at h
    have hcons : ∀ s1 : SP3EphemerisStore, ∀ v : Bool,
        s1.rejectBadPosFlag = s.rejectBadPosFlag →
        s1.rejectPredPosFlag = s.rejectPredPosFlag →
        s1.hasVelocity = (s.hasVelocity && v) →
        ingestRecords (ingestSP3Record b) s1 as = Except.ok s2 →
        s2.hasVelocity = (s.hasVelocity && (v && s.acceptedHaveVelocity as)) := by
      intro s1 v f1 f2 hv hi
      have e : s1.acceptedHaveVelocity as = s.acceptedHaveVelocity as := by
        unfold acceptedHaveVelocity acceptsPosition
        rw [f1, f2]
      rw [ih s1 hi, hv, e, Bool.and_assoc]
    cases a with
    | header g =>
      simp only [ingestSP3Record] at h
      cases hrec : s.reconcileTimeSystem g with
      | error e => rw [hrec] at h; cases h
      | ok s1 =>
        rw [hrec] at h
        have hs1 : s1.rejectBadPosFlag = s.rejectBadPosFlag ∧
            s1.rejectPredPosFlag = s.rejectPredPosFlag ∧ s1.hasVelocity = s.hasVelocity := by
          unfold reconcileTimeSystem at hrec
          split at hrec
          · cases hrec; exact ⟨rfl, rfl, rfl⟩
          · split at hrec
            · cases hrec; exact ⟨rfl, rfl, rfl⟩
            · cases hrec
        have := hcons s1 true hs1.1 hs1.2.1 (by rw [hs1.2.2, Bool.and_true]) h
        simpa [acceptedHaveVelocity] using this
    | position p =>
      simp only [ingestSP3Record] at h
      by_cases hc : (s.rejectBadPosFlag && p.bad || s.rejectPredPosFlag && p.predicted) = true
      · rw [if_pos hc] at h
        have := hcons s true rfl rfl (by rw [Bool.and_true]) h
        simpa [acceptedHaveVelocity, acceptsPosition, hc] using this
      · rw [if_neg hc] at h
        have hv : (s.addPositionRecord p.sat p.ttag p.data).hasVelocity
            = (s.hasVelocity && p.data.Vel.isSome) := rfl
        have := hcons (s.addPositionRecord p.sat p.ttag p.data) p.data.Vel.isSome rfl rfl hv h
        simp only [Bool.not_eq_true] at hc
        simpa [acceptedHaveVelocity, acceptsPosition, hc] using this
    | clock c0 =>
      simp only [ingestSP3Record] at h
      have key : ∀ s1 : SP3EphemerisStore, s1.posStore = s.posStore →
          s1.rejectBadPosFlag = s.rejectBadPosFlag →
          s1.rejectPredPosFlag = s.rejectPredPosFlag →
          ingestRecords (ingestSP3Record b) s1 as = Except.ok s2 →
          s2.hasVelocity = (s.hasVelocity && s.acceptedHaveVelocity (FileRecord.clock c0 :: as)) := by
        intro s1 e0 f1 f2 hi
        have := hcons s1 true f1 f2 (by simp only [hasVelocity, e0, Bool.and_true]) hi
        simpa [acceptedHaveVelocity] using this
      by_cases hb : (!b) = true
      · rw [if_pos hb] at h
        exact key s rfl rfl rfl h
      · rw [if_neg hb] at h
        by_cases hc : (s.rejectBadClockFlag && c0.bad ||
            s.rejectPredClockFlag && c0.predicted) = true
        · rw [if_pos hc] at h
          exact key s rfl rfl rfl h
        · rw [if_neg hc] at h
          exact key (s.addClockRecord c0.sat c0.ttag c0.data) rfl rfl rfl h

theorem all_not_lacks_eq_false (ops : List PositionIngestion) :
    ops.all (fun op => !op.lacksVelocity) = false ↔ ∃ op ∈ ops, op.lacksVelocity = true := by
  rw [← Bool.not_eq_true, List.all_eq_true]
  constructor
  · intro h
    by_contra hn
    apply h
    intro op hop
    cases hl : op.lacksVelocity
    · rfl
    · exact absurd ⟨op, hop, hl⟩ hn
  · rintro ⟨op, hop, hl⟩ h
    have := h op hop
    rw [hl] at this
    cases this

theorem acceptedHaveVelocity_eq_false (s : SP3EphemerisStore) (rs : List FileRecord) :
    s.acceptedHaveVelocity rs = false ↔
      ∃ p, FileRecord.position p ∈ rs ∧ s.acceptsPosition p = true ∧ p.data.Vel = none := by
  unfold acceptedHaveVelocity
  rw [← Bool.not_eq_true, List.all_eq_true]
  constructor
  · intro h
    by_contra hn
    apply h
    intro r hr
    cases r with
    | header g => rfl
    | clock c => rfl
    | position p =>
      simp only
      cases ha : s.acceptsPosition p
      · rfl
      · cases hv : p.data.Vel with
        | some v => rfl
        | none => exact absurd ⟨p, hr, ha, hv⟩ hn
  · rintro ⟨p, hp, ha, hv⟩ h
    have := h _ hp
    simp only [ha, hv] at this
    cases this

/-- C21: a new store and a cleared store report `hasVelocity()` true; after any
sequence of calls of `addPositionRecord`, `addPositionData` and `addVelocityData` on
such a store `hasVelocity()` is false if and only if at least one call ingested a
position sample lacking the velocity; on any store, once the flag is false it stays
false through such calls, and `clear()` sets it again. Ingesting a primary-format file
leaves the flag false exactly when it was false already or the ingestion succeeds and
a position sample of the file that passes the rejection rules lacks the velocity. -/
theorem hasVelocity_iff_sample_lacked_velocity (s : SP3EphemerisStore)
    (ops : List PositionIngestion) :
    (new.hasVelocity = true ∧ s.clear.hasVelocity = true) ∧
    ((new.ingestPositions ops).hasVelocity = false ↔
      ∃ op ∈ ops, op.lacksVelocity = true) ∧
    ((s.clear.ingestPositions ops).hasVelocity = false ↔
      ∃ op ∈ ops, op.lacksVelocity = true) ∧
    (s.hasVelocity = false → (s.ingestPositions ops).hasVelocity = false) ∧
    ((s.ingestPositions ops).clear.hasVelocity = true) ∧
    (∀ file b, ((s.loadSP3Store file b).1.hasVelocity = false ↔
      (s.hasVelocity = false ∨
        ((s.loadSP3Store file b).2 = none ∧
          ∃ p, FileRecord.position p ∈ file.records ∧ s.acceptsPosition p = true ∧
            p.data.Vel = none)))) := by
  refine ⟨⟨rfl, rfl⟩, ?_, ?_, ?_, rfl, ?_⟩
  · rw [ingestPositions_hasVelocity, show new.hasVelocity = true from rfl, Bool.true_and]
    exact all_not_lacks_eq_false ops
  · rw [ingestPositions_hasVelocity, show s.clear.hasVelocity = true from rfl, Bool.true_and]
    exact all_not_lacks_eq_false ops
  · intro h
    rw [ingestPositions_hasVelocity, h, Bool.false_and]
  · intro file b
    unfold loadSP3Store
    cases hi : ingestRecords (ingestSP3Record b) s file.records with
    | error e =>
      simp
    | ok s2 =>
      have hv := ingestSP3Records_hasVelocity b file.records s s2 hi
      have hv2 : ({ s2 with SP3Files := s2.SP3Files.addFile file.filename } :
          SP3EphemerisStore).hasVelocity = s2.hasVelocity := rfl
      simp only [hv2, hv, Bool.and_eq_false_iff, true_and, acceptedHaveVelocity_eq_false]

/-- Witness of C21: on a new store a record with velocity followed by position data
alone leaves the flag false, a record with velocity followed by velocity data leaves
it true; a file whose only sample without velocity is rejected as bad leaves it true,
a file with an accepted sample without velocity leaves it false. -/
theorem hasVelocity_iff_sample_lacked_velocity_witness :
    ((new.ingestPositions
        [PositionIngestion.record satG01 0 (posVelRec 1 2 3),
         PositionIngestion.position satG01 900 ⟨2, 3, 4⟩ ⟨0, 0, 0⟩]).hasVelocity = false ∧
      ∃ op ∈ [PositionIngestion.record satG01 0 (posVelRec 1 2 3),
          PositionIngestion.position satG01 900 ⟨2, 3, 4⟩ ⟨0, 0, 0⟩],
        op.lacksVelocity = true) ∧
    (new.ingestPositions
        [PositionIngestion.record satG01 0 (posVelRec 1 2 3),
         PositionIngestion.velocity satG01 0 ⟨2, 2, 2⟩ ⟨0, 0, 0⟩]).hasVelocity = true ∧
    (sp3Store.hasVelocity = false ∧
      (sp3Store.ingestPositions
        [PositionIngestion.record satG01 2700 (posVelRec 4 5 6)]).hasVelocity = false) ∧
    (new.loadSP3File sp3FileVel).1.hasVelocity = true ∧
    (new.loadSP3File sp3FileGPS).1.hasVelocity = false :=
  ⟨⟨by decide,
    ((hasVelocity_iff_sample_lacked_velocity new
      [PositionIngestion.record satG01 0 (posVelRec 1 2 3),
       PositionIngestion.position satG01 900 ⟨2, 3, 4⟩ ⟨0, 0, 0⟩]).2.1).1 (by decide)⟩,
   by decide,
   ⟨rfl, (hasVelocity_iff_sample_lacked_velocity sp3Store
      [PositionIngestion.record satG01 2700 (posVelRec 4 5 6)]).2.2.2.1 rfl⟩,
   by decide, by decide⟩

end SP3EphemerisStore

end gpstk
